import Mathlib

/-!
Dashboard core status reducers and the `DeltaSampler` rate estimator.

A shallow embedding of

* `src/dashboard/src/utility/time.js` (`DeltaSampler`, `humanizeDuration`),
* `src/dashboard/src/features/core/reducers.js` (the core status reducers), and
* `src/dashboard/src/features/transactions/actions.js` (`preprocessTransaction`),

followed by theorems about them.

Modelling conventions:

* A JavaScript number is a `JSNum`: not-a-number, the two infinities, or a finite value.
  Finite values are exact rationals, so the rounding and the overflow of binary64 are
  idealised away, and there is no negative zero.  The only divisors the program uses are
  a difference of two integer timestamps and a speed that has passed `speed != 0`,
  so the sign of a zero divisor is never observable; a zero divisor is treated as `+0`.
  Because of the idealisation a numeric result is stated through the operators of the
  code (`-`, `*`, `/`), and as a value only where binary64 computes it exactly: whole
  numbers up to `2^53` and exact quotients of them such as `3.5`.
* An optional property of the core info is a `JSField`: missing, `null`, or a value of
  the type the API sends for it.
* `Date.now()` is an explicit `Int` argument (milliseconds), one argument per call.
* The module variable `syncSamplers` is threaded through `syncEstimates` explicitly.
* The identity of a sample object (`earliest === latest`) is its position in the buffer:
  every `push` allocates a fresh object, so two buffer entries are the same object
  exactly when they sit at the same index.
* A reducer with a default parameter (`state = ''`) is modelled on defined states; the
  default is named in its doc comment.
* The field reducers built on `coreConfigReducer` hold a `JSValue`, since a field and
  its default may differ in type; code that throws a `TypeError` returns `none`.
* What the sources import from elsewhere is a parameter: the number-to-string
  conversion, the `moment` formatting calls, `testNetUrl` and `parseNonblankJSON`.
-/

namespace Chain

/-! ## JavaScript values -/

/-- JavaScript number: `NaN`, `Infinity`, `-Infinity`, or a finite value. -/
inductive JSNum where
  | nan
  | posInf
  | negInf
  | fin (q : ℚ)
  deriving DecidableEq

namespace JSNum

/-- Numeric subtraction `a - b`; on finite values the exact difference, which binary64
    rounds. -/
def sub : JSNum → JSNum → JSNum
  | nan, _ => nan
  | _, nan => nan
  | posInf, posInf => nan
  | posInf, _ => posInf
  | negInf, negInf => nan
  | negInf, _ => negInf
  | fin _, posInf => negInf
  | fin _, negInf => posInf
  | fin a, fin b => fin (a - b)

/-- Numeric multiplication `a * b`; on finite values the exact product, which binary64
    rounds and turns into an infinity on overflow. -/
def mul : JSNum → JSNum → JSNum
  | nan, _ => nan
  | _, nan => nan
  | posInf, posInf => posInf
  | posInf, negInf => negInf
  | negInf, posInf => negInf
  | negInf, negInf => posInf
  | posInf, fin b => if b = 0 then nan else if 0 < b then posInf else negInf
  | negInf, fin b => if b = 0 then nan else if 0 < b then negInf else posInf
  | fin a, posInf => if a = 0 then nan else if 0 < a then posInf else negInf
  | fin a, negInf => if a = 0 then nan else if 0 < a then negInf else posInf
  | fin a, fin b => fin (a * b)

/-- Numeric division `a / b`; a zero divisor counts as `+0`; on finite values the exact
    quotient, which binary64 rounds. -/
def div : JSNum → JSNum → JSNum
  | nan, _ => nan
  | _, nan => nan
  | posInf, posInf => nan
  | posInf, negInf => nan
  | negInf, posInf => nan
  | negInf, negInf => nan
  | posInf, fin b => if 0 ≤ b then posInf else negInf
  | negInf, fin b => if 0 ≤ b then negInf else posInf
  | fin _, posInf => fin 0
  | fin _, negInf => fin 0
  | fin a, fin b =>
      if b = 0 then (if a = 0 then nan else if 0 < a then posInf else negInf)
      else fin (a / b)

instance instSub : Sub JSNum := ⟨sub⟩
instance instMul : Mul JSNum := ⟨mul⟩
instance instDiv : Div JSNum := ⟨div⟩

/-- Relational `a < b`: false as soon as one side is `NaN`. -/
def lt : JSNum → JSNum → Bool
  | nan, _ => false
  | _, nan => false
  | posInf, _ => false
  | _, negInf => false
  | negInf, _ => true
  | fin _, posInf => true
  | fin a, fin b => decide (a < b)

/-- Relational `a > b`, which JavaScript evaluates as `b < a`. -/
def gt (a b : JSNum) : Bool := lt b a

/-- Loose inequality `a != b` of two numbers: true as soon as one side is `NaN`. -/
def looseNe : JSNum → JSNum → Bool
  | nan, _ => true
  | _, nan => true
  | a, b => decide (a ≠ b)

/-- Number of an integer, as for a `Date.now()` reading. -/
def ofInt (z : Int) : JSNum := fin z

end JSNum

/-- Optional property of a JSON object: missing (`undefined`), `null`, or a value. -/
inductive JSField (α : Type) where
  | absent
  | null
  | val (a : α)
  deriving DecidableEq

namespace JSField

/-- Loose comparison `x == null`: true for `undefined` and for `null`. -/
def isNullish {α : Type} : JSField α → Bool
  | absent => true
  | null => true
  | val _ => false

/-- Coercion `ToNumber`: `undefined` is `NaN`, `null` is `0`. -/
def toNumber : JSField JSNum → JSNum
  | absent => JSNum.nan
  | null => JSNum.fin 0
  | val x => x

/-- Coercion `ToBoolean` of an optional boolean property. -/
def truthy : JSField Bool → Bool
  | val b => b
  | _ => false

end JSField

/-! ## `utility/time.js`: `DeltaSampler` -/

/-- Entry `{value, time}` of the sample buffer; `value` is stored as it was passed. -/
structure Sample where
  value : JSField JSNum
  time : Int
  deriving DecidableEq

/-- Fields of a `DeltaSampler` instance. -/
structure DeltaSampler where
  sampleTtl : Int
  maxSamples : Int
  samples : List Sample
  deriving DecidableEq

/-- Variables `earliest` and `latest` of `average()`; an entry is kept with its index,
    which stands for the identity of the sample object. -/
structure Scan where
  earliest : Option (Nat × Sample)
  latest : Option (Nat × Sample)
  deriving DecidableEq

namespace DeltaSampler

/-- Constructor `new DeltaSampler({sampleTtl, maxSamples})`; the defaults of the source
    are `60*1000` and `60`. -/
def create (sampleTtl maxSamples : Int) : DeltaSampler :=
  { sampleTtl := sampleTtl, maxSamples := maxSamples, samples := [] }

/-- Body of the `for` loop of `average()` for the sample `s` at index `i`. -/
def scanStep (cutoff : Int) (acc : Scan) (i : Nat) (s : Sample) : Scan :=
  if s.time < cutoff then acc
  else
    { earliest := if acc.earliest.isNone then some (i, s) else acc.earliest
      latest := some (i, s) }

/-- The `for` loop of `average()`, from index `i` on. -/
def scanFrom (cutoff : Int) : Nat → List Sample → Scan → Scan
  | _, [], acc => acc
  | i, s :: rest, acc => scanFrom cutoff (i + 1) rest (scanStep cutoff acc i s)

/-- Method `average()`, with `now` the reading of `Date.now()`.
    The last alternative of the `match` is never taken (`scanFrom_none_iff`): the loop
    assigns `latest` whenever it assigns `earliest`. -/
def average (d : DeltaSampler) (now : Int) : JSNum :=
  let cutoff := now - d.sampleTtl
  let r := scanFrom cutoff 0 d.samples { earliest := none, latest := none }
  match r.earliest, r.latest with
  | none, none => JSNum.nan
  | some (i, e), some (j, l) =>
      if i = j then JSNum.nan
      else
        JSNum.fin 1000 * (l.value.toNumber - e.value.toNumber) / JSNum.ofInt (l.time - e.time)
  | _, _ => JSNum.nan

/-- Buffer after the `push` and the conditional `shift` of `sample(value)`. -/
def record (d : DeltaSampler) (value : JSField JSNum) (tPush : Int) : DeltaSampler :=
  let pushed := d.samples ++ [{ value := value, time := tPush }]
  { d with samples := if (pushed.length : Int) > d.maxSamples then pushed.tail else pushed }

/-- Method `sample(value)`: `tPush` is the clock reading stored in the new sample and
    `tAvg` the later reading taken by `average()`.  Returns the average and the
    updated sampler. -/
def sample (d : DeltaSampler) (value : JSField JSNum) (tPush tAvg : Int) :
    JSNum × DeltaSampler :=
  let d1 := d.record value tPush
  (d1.average tAvg, d1)

/-- Successive `sample` calls, one per entry `(value, tPush, tAvg)`. -/
def sampleAll (d : DeltaSampler) : List (JSField JSNum × Int × Int) → DeltaSampler
  | [] => d
  | (v, tPush, tAvg) :: rest => sampleAll (d.sample v tPush tAvg).2 rest

end DeltaSampler

/-! ## `features/core/reducers.js` -/

/-- Property `snapshot` of the core info, `{in_progress, downloaded, size}`. -/
structure Snapshot where
  in_progress : JSField Bool := JSField.absent
  downloaded : JSField JSNum := JSField.absent
  size : JSField JSNum := JSField.absent
  deriving DecidableEq

/-- Payload `action.param` of an `UPDATE_CORE_INFO` action; every property is optional. -/
structure Param where
  is_configured : JSField Bool := JSField.absent
  configured_at : JSField String := JSField.absent
  build_commit : JSField String := JSField.absent
  build_date : JSField String := JSField.absent
  is_production : JSField Bool := JSField.absent
  block_height : JSField JSNum := JSField.absent
  generator_block_height : JSField JSNum := JSField.absent
  is_signer : JSField Bool := JSField.absent
  is_generator : JSField Bool := JSField.absent
  generator_url : JSField String := JSField.absent
  generator_access_token : JSField String := JSField.absent
  blockchain_id : JSField String := JSField.absent
  network_rpc_version : JSField JSNum := JSField.absent
  snapshot : JSField Snapshot := JSField.absent
  deriving DecidableEq

/-- Redux actions, by `action.type`.  `ERROR` carries `action.payload.status`;
    `other` is an action of any type the reducers do not test for. -/
inductive Action where
  | UPDATE_CORE_INFO (param : Param)
  | CORE_DISCONNECT
  | USER_LOG_OUT
  | USER_LOG_IN
  | SET_CLIENT_TOKEN (token : String)
  | ERROR (status : Int)
  | other
  deriving DecidableEq

/-- Module variable `syncSamplers` once assigned: the two estimators. -/
structure SyncSamplers where
  snapshot : DeltaSampler
  replicaLag : DeltaSampler
  deriving DecidableEq

/-- Value that `resetSyncEstimators()` assigns to `syncSamplers`; `maxSamples` takes the
    constructor default `60`. -/
def resetSyncEstimators : SyncSamplers :=
  { snapshot := DeltaSampler.create (10 * 1000) 60
    replicaLag := DeltaSampler.create (10 * 1000) 60 }

/-- State of `syncEstimates`, an object with the optional keys `snapshot` and
    `replicaLag`; `{}` has neither. -/
structure Estimates where
  snapshot : Option JSNum := none
  replicaLag : Option JSNum := none
  deriving DecidableEq

/-- The `else` branch of `syncEstimates`: no snapshot transfer in progress. -/
def syncReplicaLag (samplers : SyncSamplers) (param : Param) (tPush tAvg : Int) :
    Estimates × Option SyncSamplers :=
  let replicaLag := param.generator_block_height.toNumber - param.block_height.toNumber
  let r := samplers.replicaLag.sample (JSField.val replicaLag) tPush tAvg
  let speed := r.1
  let estimates : Estimates :=
    if speed.looseNe (JSNum.fin 0) then
      let duration := JSNum.fin (-1) * replicaLag / speed
      if duration.gt (JSNum.fin 0) then { replicaLag := some duration } else {}
    else {}
  (estimates, some { samplers with replicaLag := r.2 })

/-- The `then` branch of `syncEstimates`: `snapshot.in_progress` is truthy. -/
def syncSnapshot (samplers : SyncSamplers) (snapshot : Snapshot) (tPush tAvg : Int) :
    Estimates × Option SyncSamplers :=
  let r := samplers.snapshot.sample snapshot.downloaded tPush tAvg
  let speed := r.1
  let estimates : Estimates :=
    if speed.looseNe (JSNum.fin 0) then
      { snapshot := some ((snapshot.size.toNumber - snapshot.downloaded.toNumber) / speed) }
    else {}
  (estimates, some { samplers with snapshot := r.2 })

/-- Reducer `syncEstimates`, with the module variable `syncSamplers` passed in and
    returned (`none` is its initial `null`), and the two clock readings that the one
    `sample` call of an `UPDATE_CORE_INFO` takes. -/
def syncEstimates (syncSamplers : Option SyncSamplers) (state : Estimates)
    (action : Action) (tPush tAvg : Int) : Estimates × Option SyncSamplers :=
  match action with
  | Action.UPDATE_CORE_INFO param =>
      let samplers :=
        match syncSamplers with
        | none => resetSyncEstimators
        | some s => s
      match param.snapshot with
      | JSField.val snapshot =>
          if snapshot.in_progress.truthy then syncSnapshot samplers snapshot tPush tAvg
          else syncReplicaLag samplers param tPush tAvg
      | _ => syncReplicaLag samplers param tPush tAvg
  | Action.CORE_DISCONNECT => ({}, some resetSyncEstimators)
  | Action.USER_LOG_OUT => ({}, some resetSyncEstimators)
  | _ => (state, syncSamplers)

/-- Reducer `replicationLagClass`; the state is `null` (`none`) or a class name. -/
def replicationLagClass (state : Option String) (action : Action) : Option String :=
  match action with
  | Action.UPDATE_CORE_INFO param =>
      if param.generator_block_height.isNullish then some "red"
      else
        let lag := param.generator_block_height.toNumber - param.block_height.toNumber
        if lag.lt (JSNum.fin 5) then some "green"
        else if lag.lt (JSNum.fin 10) then some "yellow"
        else some "red"
  | _ => state

/-- Reducer `requireClientToken` (initial state `false`). -/
def requireClientToken (state : Bool) (action : Action) : Bool :=
  match action with
  | Action.ERROR status => if status = 401 then true else state
  | _ => state

/-- Reducer `clientToken` (initial state `''`). -/
def clientToken (state : String) (action : Action) : String :=
  match action with
  | Action.SET_CLIENT_TOKEN token => token
  | Action.USER_LOG_OUT => ""
  | Action.ERROR status => if status = 401 then "" else state
  | _ => state

/-- Reducer `validToken` (initial state `false`). -/
def validToken (state : Bool) (action : Action) : Bool :=
  match action with
  | Action.SET_CLIENT_TOKEN _ => false
  | Action.USER_LOG_IN => true
  | Action.USER_LOG_OUT => false
  | Action.ERROR status => if status = 401 then false else state
  | _ => state

/-- The three session fields of the combined state. -/
structure SessionState where
  clientToken : String
  validToken : Bool
  requireClientToken : Bool
  deriving DecidableEq

/-- The `combineReducers` root reducer, restricted to the three session fields: each
    field is reduced by its own reducer. -/
def sessionReducer (s : SessionState) (action : Action) : SessionState :=
  { clientToken := clientToken s.clientToken action
    validToken := validToken s.validToken action
    requireClientToken := requireClientToken s.requireClientToken action }

/-! ## `features/core/reducers.js`: the fields derived from the core info

Strings are sequences of UTF-16 code units; a `Char` stands for one code unit.  Three
things the reducers use are not part of the sources and are parameters: the conversion
of a number to a string (`numberToString`, used by `+ ''` and by template strings), the
two `moment` formatting calls, and the constant `testNetUrl`. -/

/-- JavaScript value of the kinds the field reducers hold. -/
inductive JSValue where
  | undefined
  | null
  | bool (b : Bool)
  | num (x : JSNum)
  | str (s : String)
  deriving DecidableEq

namespace JSValue

/-- Coercion `ToBoolean`. -/
def truthy : JSValue → Bool
  | undefined => false
  | null => false
  | bool b => b
  | num x => decide (x ≠ JSNum.nan ∧ x ≠ JSNum.fin 0)
  | str s => decide (s ≠ "")

/-- Operator `a || b`. -/
def or (a b : JSValue) : JSValue := if a.truthy then a else b

/-- Loose comparison `value != ''`: the empty string is loosely equal to `''`, to `0`
    and to `false`, and to nothing else. -/
def looseNeEmpty : JSValue → Bool
  | undefined => true
  | null => true
  | bool b => b
  | num x => decide (x ≠ JSNum.fin 0)
  | str s => decide (s ≠ "")

end JSValue

/-- Value read from an optional property. -/
def JSField.toValue {α : Type} (inj : α → JSValue) : JSField α → JSValue
  | JSField.absent => JSValue.undefined
  | JSField.null => JSValue.null
  | JSField.val a => inj a

/-- Property access `param[key]` for the scalar properties of the core info. -/
def Param.get (p : Param) (key : String) : JSValue :=
  if key = "is_configured" then p.is_configured.toValue JSValue.bool
  else if key = "configured_at" then p.configured_at.toValue JSValue.str
  else if key = "build_commit" then p.build_commit.toValue JSValue.str
  else if key = "build_date" then p.build_date.toValue JSValue.str
  else if key = "is_production" then p.is_production.toValue JSValue.bool
  else if key = "block_height" then p.block_height.toValue JSValue.num
  else if key = "generator_block_height" then p.generator_block_height.toValue JSValue.num
  else if key = "is_signer" then p.is_signer.toValue JSValue.bool
  else if key = "is_generator" then p.is_generator.toValue JSValue.bool
  else if key = "generator_url" then p.generator_url.toValue JSValue.str
  else if key = "generator_access_token" then p.generator_access_token.toValue JSValue.str
  else if key = "blockchain_id" then p.blockchain_id.toValue JSValue.str
  else if key = "network_rpc_version" then p.network_rpc_version.toValue JSValue.num
  else JSValue.undefined

/-- Method `s.substring(start, end)`: the code units from `min start end` up to
    `max start end`, both clamped to the length. -/
def substring (s : String) (start stop : Nat) : String :=
  ⟨(s.data.take (max start stop)).drop (min start stop)⟩

/-- Function `coreConfigReducer(key, state, defaultState, action)`. -/
def coreConfigReducer (key : String) (state defaultState : JSValue) (action : Action) :
    JSValue :=
  match action with
  | Action.UPDATE_CORE_INFO param => (param.get key).or defaultState
  | _ => state.or defaultState

/-- Reducer `configured`. -/
def configured (state : JSValue) (action : Action) : JSValue :=
  coreConfigReducer "is_configured" state (JSValue.bool false) action

/-- Reducer `configuredAt`; `momentFormat value` stands for
    `moment(value).format(LONG_TIME_FORMAT)`. -/
def configuredAt (momentFormat : JSValue → String) (state : JSValue) (action : Action) :
    JSValue :=
  let value := coreConfigReducer "configured_at" state (JSValue.str "") action
  match action with
  | Action.UPDATE_CORE_INFO _ =>
      if value.looseNeEmpty then JSValue.str (momentFormat value) else value
  | _ => value

/-- Reducer `buildCommit`; `none` is the `TypeError` of calling `substring` on a value
    that is not a string. -/
def buildCommit (state : JSValue) (action : Action) : Option JSValue :=
  let value := coreConfigReducer "build_commit" state (JSValue.str "") action
  if value = JSValue.str "?" then some (JSValue.str "Local development")
  else if value.looseNeEmpty then
    match value with
    | JSValue.str s => some (JSValue.str (substring s 0 18))
    | _ => none
  else some value

/-- Reducer `buildDate`; `momentFormatX value` stands for
    `moment(value, 'X').format(LONG_TIME_FORMAT)`. -/
def buildDate (momentFormatX : JSValue → String) (state : JSValue) (action : Action) :
    JSValue :=
  let value := coreConfigReducer "build_date" state (JSValue.str "") action
  if value ≠ JSValue.str "" then JSValue.str (momentFormatX value) else value

/-- Reducer `production`. -/
def production (state : JSValue) (action : Action) : JSValue :=
  coreConfigReducer "is_production" state (JSValue.bool false) action

/-- Reducer `blockHeight`. -/
def blockHeight (state : JSValue) (action : Action) : JSValue :=
  coreConfigReducer "block_height" state (JSValue.num (JSNum.fin 0)) action

/-- Reducer `generatorBlockHeight`. -/
def generatorBlockHeight (state : JSValue) (action : Action) : JSValue :=
  match action with
  | Action.UPDATE_CORE_INFO param =>
      if param.generator_block_height.isNullish then JSValue.str "???"
      else coreConfigReducer "generator_block_height" state (JSValue.num (JSNum.fin 0)) action
  | _ => coreConfigReducer "generator_block_height" state (JSValue.num (JSNum.fin 0)) action

/-- Reducer `signer`. -/
def signer (state : JSValue) (action : Action) : JSValue :=
  coreConfigReducer "is_signer" state (JSValue.bool false) action

/-- Reducer `generator`. -/
def generator (state : JSValue) (action : Action) : JSValue :=
  coreConfigReducer "is_generator" state (JSValue.bool false) action

/-- Reducer `generatorUrl`. -/
def generatorUrl (state : JSValue) (action : Action) : JSValue :=
  coreConfigReducer "generator_url" state (JSValue.bool false) action

/-- Reducer `generatorAccessToken`. -/
def generatorAccessToken (state : JSValue) (action : Action) : JSValue :=
  coreConfigReducer "generator_access_token" state (JSValue.bool false) action

/-- Reducer `blockchainID`. -/
def blockchainID (state : JSValue) (action : Action) : JSValue :=
  coreConfigReducer "blockchain_id" state (JSValue.num (JSNum.fin 0)) action

/-- Reducer `networkRpcVersion`. -/
def networkRpcVersion (state : JSValue) (action : Action) : JSValue :=
  coreConfigReducer "network_rpc_version" state (JSValue.num (JSNum.fin 0)) action

/-- Reducer `coreType` (initial state `''`). -/
def coreType (state : JSValue) (action : Action) : JSValue :=
  match action with
  | Action.UPDATE_CORE_INFO param =>
      if param.is_generator.truthy then JSValue.str "Generator"
      else if param.is_signer.truthy then JSValue.str "Signer"
      else JSValue.str "Participant"
  | _ => state

/-- Reducer `replicationLag` (initial state `null`); the difference is turned into a
    string by `+ ''`. -/
def replicationLag (numberToString : JSNum → String) (state : JSValue) (action : Action) :
    JSValue :=
  match action with
  | Action.UPDATE_CORE_INFO param =>
      if param.generator_block_height.isNullish then JSValue.str "???"
      else
        JSValue.str (numberToString
          (param.generator_block_height.toNumber - param.block_height.toNumber) ++ "")
  | _ => state

/-- Reducer `onTestNet` (initial state `false`); `indexOf(testNetUrl) >= 0` holds when
    `testNetUrl` occurs in the string.  The second alternative of the inner `match` is
    never taken: `generator_url || ''` is a string, `generator_url` being one. -/
def onTestNet (testNetUrl : String) (state : Bool) (action : Action) : Bool :=
  match action with
  | Action.UPDATE_CORE_INFO param =>
      match (param.get "generator_url").or (JSValue.str "") with
      | JSValue.str url => decide (testNetUrl.data <:+: url.data)
      | _ => false
  | _ => state

/-- Reducer `snapshot` (initial state `null`): `action.param.snapshot || null`. -/
def snapshot (state : Option Snapshot) (action : Action) : Option Snapshot :=
  match action with
  | Action.UPDATE_CORE_INFO param =>
      match param.snapshot with
      | JSField.val s => some s
      | _ => none
  | _ => state

/-! ## `utility/time.js`: `humanizeDuration` -/

namespace JSNum

/-- Function `Math.floor`. -/
def floor : JSNum → JSNum
  | fin q => fin (⌊q⌋ : Int)
  | x => x

/-- Function `Math.round`: the nearest integer, a tie going up. -/
def round : JSNum → JSNum
  | fin q => fin (⌊q + 1 / 2⌋ : Int)
  | x => x

/-- Operator `a % b`: the remainder of the division truncated towards zero, with the
    sign of `a`. -/
def rem : JSNum → JSNum → JSNum
  | nan, _ => nan
  | _, nan => nan
  | posInf, _ => nan
  | negInf, _ => nan
  | fin a, posInf => fin a
  | fin a, negInf => fin a
  | fin a, fin b =>
      if b = 0 then nan
      else if 0 ≤ a / b then fin (a - b * (⌊a / b⌋ : Int))
      else fin (a - b * (⌈a / b⌉ : Int))

instance instMod : Mod JSNum := ⟨rem⟩

end JSNum

/-- The tail of `humanizeDuration`, from `big = Math.floor(big)` on. -/
def humanizeParts (numberToString : JSNum → String) (big little : JSNum)
    (bigUnit littleUnit : String) : String :=
  let big := big.floor
  let little := little.round
  if big.gt (JSNum.fin 9) then numberToString big ++ bigUnit
  else numberToString big ++ bigUnit ++ " " ++ numberToString little ++ littleUnit

/-- Function `humanizeDuration(seconds)`; a template string `${x}` of a number is
    `numberToString x`. -/
def humanizeDuration (numberToString : JSNum → String) (seconds : JSNum) : String :=
  if seconds.gt (JSNum.fin (24 * 60 * 60)) then
    humanizeParts numberToString (seconds / JSNum.fin (24 * 60 * 60))
      (seconds % JSNum.fin (24 * 60 * 60)) "d" "h"
  else if seconds.gt (JSNum.fin (60 * 60)) then
    humanizeParts numberToString (seconds / JSNum.fin (60 * 60))
      (seconds % JSNum.fin (60 * 60)) "h" "m"
  else if seconds.gt (JSNum.fin 60) then
    humanizeParts numberToString (seconds / JSNum.fin 60) (seconds % JSNum.fin 60) "m" "s"
  else numberToString seconds.round ++ "s"

/-! ## `features/transactions/actions.js`: `preprocessTransaction`

The helper `parseNonblankJSON` of `utility/string` is not part of the sources and is a
parameter: it maps the `reference_data` of a form row to a parsed value, and `none`
stands for the exception it throws on text that is neither blank nor valid JSON. -/

/-- One entry of `actions`: the properties `preprocessTransaction` reads or writes, and
    the remaining ones in `others`.  `R` is the type of `reference_data`: the text of the
    form on the way in, the parsed value on the way out. -/
structure TxAction (R : Type) where
  type : JSField String := JSField.absent
  ttl : JSField String := JSField.absent
  reservation_ttl : JSField String := JSField.absent
  control_program : JSField String := JSField.absent
  reference_data : R
  others : List (String × JSValue) := []
  deriving DecidableEq

/-- Argument `formParams` of `preprocessTransaction`. -/
structure FormParams where
  base_transaction : JSField String := JSField.absent
  actions : JSField (List (TxAction (JSField String))) := JSField.absent
  submit_action : JSField String := JSField.absent
  deriving DecidableEq

/-- Object `builder` returned by `preprocessTransaction`; a deleted property and a
    property holding `undefined` are both `JSField.absent`. -/
structure Builder (J : Type) where
  base_transaction : JSField String
  actions : JSField (List (TxAction J))
  deriving DecidableEq

/-- Value of a property after `JSON.parse(JSON.stringify(x))`: `none` for `undefined`,
    whose property is dropped; a number that is not finite becomes `null`. -/
def jsonCopyValue : JSValue → Option JSValue
  | JSValue.undefined => none
  | JSValue.num (JSNum.fin q) => some (JSValue.num (JSNum.fin q))
  | JSValue.num _ => some JSValue.null
  | v => some v

/-- An action after `JSON.parse(JSON.stringify(x))`: the string properties are copied
    as they are, a missing one stays missing. -/
def jsonCopyAction (a : TxAction (JSField String)) : TxAction (JSField String) :=
  { a with
    others := a.others.filterMap (fun kv => (jsonCopyValue kv.2).map (fun v => (kv.1, v))) }

/-- Body of the `for` loop of `preprocessTransaction` for the action `a`; `generate` is
    the test `formParams.submit_action == 'generate'`, and `none` is the exception of
    `parseNonblankJSON`. -/
def preprocessAction {J : Type} (parseNonblankJSON : JSField String → Option J)
    (generate : Bool) (a : TxAction (JSField String)) : Option (TxAction J) :=
  let a1 :=
    if generate then { a with ttl := JSField.val "1h", reservation_ttl := JSField.val "1h" }
    else a
  let a2 := if a1.type = JSField.val "retire_asset" then
      { a1 with type := JSField.val "control_program", control_program := JSField.val "6a" }
    else a1
  match parseNonblankJSON a2.reference_data with
  | some parsed =>
      some { type := a2.type, ttl := a2.ttl, reservation_ttl := a2.reservation_ttl,
             control_program := a2.control_program, reference_data := parsed,
             others := a2.others }
  | none => none

/-- The `for` loop of `preprocessTransaction` from index `i` on; the error is the message
    of the `Error` thrown for the first action whose reference data does not parse. -/
def preprocessActions {J : Type} (parseNonblankJSON : JSField String → Option J)
    (generate : Bool) : Nat → List (TxAction (JSField String)) →
    Except String (List (TxAction J))
  | _, [] => Except.ok []
  | i, a :: rest =>
      match preprocessAction parseNonblankJSON generate a with
      | none =>
          Except.error
            ("Action " ++ toString (i + 1) ++ " reference data should be valid JSON, or blank.")
      | some b =>
          match preprocessActions parseNonblankJSON generate (i + 1) rest with
          | Except.ok bs => Except.ok (b :: bs)
          | Except.error err => Except.error err

/-- Function `preprocessTransaction(formParams)`.  A `for ... in` over a missing or null
    `actions` runs no iteration. -/
def preprocessTransaction {J : Type} (parseNonblankJSON : JSField String → Option J)
    (formParams : FormParams) : Except String (Builder J) :=
  let base_transaction :=
    if formParams.base_transaction = JSField.val "" then JSField.absent
    else formParams.base_transaction
  let generate := decide (formParams.submit_action = JSField.val "generate")
  match formParams.actions with
  | JSField.val actions =>
      match preprocessActions parseNonblankJSON generate 0 (actions.map jsonCopyAction) with
      | Except.ok built =>
          Except.ok { base_transaction := base_transaction, actions := JSField.val built }
      | Except.error err => Except.error err
  | JSField.null =>
      Except.ok { base_transaction := base_transaction, actions := JSField.null }
  | JSField.absent =>
      Except.ok { base_transaction := base_transaction, actions := JSField.absent }

/-! ## Vocabulary of the statements -/

/-- A sample is non-expired at `cutoff` when the loop of `average()` does not skip it:
    `s.time < cutoff` is false. -/
def live (cutoff : Int) (s : Sample) : Bool := decide (cutoff ≤ s.time)

/-- The non-expired samples of a buffer, each with its index, in buffer order. -/
def liveEntries (cutoff : Int) (i : Nat) (xs : List Sample) : List (Nat × Sample) :=
  (xs.enumFrom i).filter (fun p => live cutoff p.2)

/-- The rate `1000 * (l.value - e.value) / (l.time - e.time)` of the last line of
    `average()`, in JavaScript arithmetic. -/
def rate (e l : Sample) : JSNum :=
  JSNum.fin 1000 * (l.value.toNumber - e.value.toNumber) / JSNum.ofInt (l.time - e.time)

/-- The condition `snapshot && snapshot.in_progress` of `syncEstimates`, as a boolean. -/
def snapshotInProgress (p : Param) : Bool :=
  match p.snapshot with
  | JSField.val snapshot => snapshot.in_progress.truthy
  | _ => false

/-- Snapshot `{in_progress: true, downloaded, size}`. -/
def transfer (downloaded size : ℚ) : Snapshot :=
  { in_progress := JSField.val true
    downloaded := JSField.val (JSNum.fin downloaded)
    size := JSField.val (JSNum.fin size) }

/-- Core info whose only property is a snapshot transfer in progress. -/
def transferInfo (downloaded size : ℚ) : Param :=
  { snapshot := JSField.val (transfer downloaded size) }

/-- Core info with only the two block heights. -/
def heights (generator_block_height block_height : JSField JSNum) : Param :=
  { generator_block_height := generator_block_height, block_height := block_height }

/-- Samplers whose replica-lag estimator holds the given samples. -/
def lagSamplers (samples : List Sample) : SyncSamplers :=
  { resetSyncEstimators with replicaLag := ⟨10 * 1000, 60, samples⟩ }

/-- The result of `average()` read off the list of non-expired samples: not-a-number
    below two samples, else the rate between the first and the last. -/
def rateOfLive : List Sample → JSNum
  | [] => JSNum.nan
  | [_] => JSNum.nan
  | e :: y :: rest => rate e ((y :: rest).getLast (List.cons_ne_nil y rest))

/-- An action is an `UPDATE_CORE_INFO`. -/
def Action.isUpdate : Action → Bool
  | Action.UPDATE_CORE_INFO _ => true
  | _ => false

/-- An instance of the parameter `numberToString`: integers in decimal, `NaN` and the
    infinities under their JavaScript names.  It agrees with JavaScript on the integers
    below `10^21` in absolute value; a fraction is printed as `num/den`, which no
    statement relies on. -/
def printNumber : JSNum → String
  | JSNum.nan => "NaN"
  | JSNum.posInf => "Infinity"
  | JSNum.negInf => "-Infinity"
  | JSNum.fin q => if q.den = 1 then toString q.num else toString q.num ++ "/" ++ toString q.den

/-- The text `buildCommit` derives from the property `build_commit` on an update. -/
def commitText : JSField String → String
  | JSField.val c => if c = "?" then "Local development" else ⟨c.data.take 18⟩
  | _ => ""

/-! ## Unfolding the arithmetic operators -/

theorem sub_def (a b : JSNum) : a - b = JSNum.sub a b := rfl

theorem mul_def (a b : JSNum) : a * b = JSNum.mul a b := rfl

theorem div_def (a b : JSNum) : a / b = JSNum.div a b := rfl

/-! ## The loop of `average()` -/

theorem liveEntries_nil (cutoff : Int) (i : Nat) : liveEntries cutoff i [] = [] := rfl

theorem liveEntries_cons (cutoff : Int) (i : Nat) (s : Sample) (rest : List Sample) :
    liveEntries cutoff i (s :: rest) =
      if live cutoff s then (i, s) :: liveEntries cutoff (i + 1) rest
      else liveEntries cutoff (i + 1) rest := by
  simp [liveEntries, List.enumFrom_cons, List.filter_cons]

theorem liveEntries_length (cutoff : Int) (xs : List Sample) (i : Nat) :
    (liveEntries cutoff i xs).length = (xs.filter (live cutoff)).length := by
  induction xs generalizing i with
  | nil => rfl
  | cons s rest ih =>
    rw [liveEntries_cons, List.filter_cons]
    by_cases h : live cutoff s = true
    · simp [h, ih]
    · simp [h, ih]

theorem scanStep_live (cutoff : Int) (acc : Scan) (i : Nat) (s : Sample)
    (h : live cutoff s = true) :
    DeltaSampler.scanStep cutoff acc i s =
      { earliest := acc.earliest.or (some (i, s)), latest := some (i, s) } := by
  have h1 : ¬ s.time < cutoff := by simpa [live] using h
  cases hacc : acc.earliest <;> simp [DeltaSampler.scanStep, h1, hacc]

theorem scanStep_expired (cutoff : Int) (acc : Scan) (i : Nat) (s : Sample)
    (h : live cutoff s = false) : DeltaSampler.scanStep cutoff acc i s = acc := by
  have h1 : s.time < cutoff := by simpa [live] using h
  simp [DeltaSampler.scanStep, h1]

/-- After the loop, `earliest` is the first non-expired sample (unless already set). -/
theorem scanFrom_earliest (cutoff : Int) (xs : List Sample) (i : Nat) (acc : Scan) :
    (DeltaSampler.scanFrom cutoff i xs acc).earliest =
      acc.earliest.or (liveEntries cutoff i xs).head? := by
  induction xs generalizing i acc with
  | nil => simp [DeltaSampler.scanFrom, liveEntries_nil]
  | cons s rest ih =>
    rw [DeltaSampler.scanFrom, ih, liveEntries_cons]
    cases h : live cutoff s
    · simp [scanStep_expired cutoff acc i s h]
    · rw [scanStep_live cutoff acc i s h]
      cases acc.earliest <;> simp

/-- After the loop, `latest` is the last non-expired sample (or what it was before). -/
theorem scanFrom_latest (cutoff : Int) (xs : List Sample) (i : Nat) (acc : Scan) :
    (DeltaSampler.scanFrom cutoff i xs acc).latest =
      (liveEntries cutoff i xs).getLast?.or acc.latest := by
  induction xs generalizing i acc with
  | nil => simp [DeltaSampler.scanFrom, liveEntries_nil]
  | cons s rest ih =>
    rw [DeltaSampler.scanFrom, ih, liveEntries_cons]
    cases h : live cutoff s
    · simp [scanStep_expired cutoff acc i s h]
    · rw [scanStep_live cutoff acc i s h]
      simp only [if_true, List.getLast?_cons]
      cases (liveEntries cutoff (i + 1) rest).getLast? <;> simp

/-- The loop never leaves exactly one of `earliest`, `latest` unset. -/
theorem scanFrom_none_iff (cutoff : Int) (xs : List Sample) :
    (DeltaSampler.scanFrom cutoff 0 xs { earliest := none, latest := none }).earliest = none ↔
      (DeltaSampler.scanFrom cutoff 0 xs { earliest := none, latest := none }).latest = none := by
  rw [scanFrom_earliest, scanFrom_latest]
  simp [List.head?_eq_none_iff, List.getLast?_eq_none_iff]

/-- The result of `average()` in terms of the first and the last non-expired sample. -/
theorem average_eq (d : DeltaSampler) (now : Int) :
    d.average now =
      match (liveEntries (now - d.sampleTtl) 0 d.samples).head?,
            (liveEntries (now - d.sampleTtl) 0 d.samples).getLast? with
      | some (i, e), some (j, l) => if i = j then JSNum.nan else rate e l
      | _, _ => JSNum.nan := by
  unfold DeltaSampler.average
  simp only [scanFrom_earliest, scanFrom_latest, Option.none_or, Option.or_none]
  cases (liveEntries (now - d.sampleTtl) 0 d.samples).head? <;>
    cases (liveEntries (now - d.sampleTtl) 0 d.samples).getLast? <;> simp [rate]

/-! ## The estimator: `average()` and `sample()` -/

/-- On a buffer of two non-expired samples, `average()` is the rate between them. -/
theorem average_pair (ttl maxSamples now : Int) (v1 v2 : JSField JSNum) (t1 t2 : Int)
    (h1 : now - ttl ≤ t1) (h2 : now - ttl ≤ t2) :
    DeltaSampler.average ⟨ttl, maxSamples, [⟨v1, t1⟩, ⟨v2, t2⟩]⟩ now =
      JSNum.fin 1000 * (v2.toNumber - v1.toNumber) / JSNum.ofInt (t2 - t1) := by
  simp [DeltaSampler.average, DeltaSampler.scanFrom, DeltaSampler.scanStep,
    not_lt.mpr h1, not_lt.mpr h2]

/-- The rate between two finite values at different times is the finite quotient. -/
theorem rate_fin (q1 q2 : ℚ) (t1 t2 : Int) (hne : t1 ≠ t2) :
    JSNum.fin 1000 * (JSNum.fin q2 - JSNum.fin q1) / JSNum.ofInt (t2 - t1) =
      JSNum.fin (1000 * (q2 - q1) / ((t2 - t1 : Int) : ℚ)) := by
  have hne1 : ((t2 - t1 : Int) : ℚ) ≠ 0 := by
    have : t2 - t1 ≠ 0 := by omega
    exact_mod_cast this
  show JSNum.div (JSNum.mul (JSNum.fin 1000) (JSNum.sub (JSNum.fin q2) (JSNum.fin q1)))
    (JSNum.fin ((t2 - t1 : Int) : ℚ)) = _
  simp only [JSNum.sub, JSNum.mul, JSNum.div, if_neg hne1]

/-- C1: `average()` is not-a-number when at most one sample of the buffer is non-expired;
    on a buffer of exactly two non-expired samples `{v1,t1}`, `{v2,t2}` with `t1 < t2` it is
    `1000 * (v2 - v1) / (t2 - t1)`, computed with the operators of the code. -/
theorem average_insufficient_or_two (ttl maxSamples now : Int) :
    (∀ samples : List Sample, (samples.filter (live (now - ttl))).length ≤ 1 →
      DeltaSampler.average ⟨ttl, maxSamples, samples⟩ now = JSNum.nan) ∧
    (∀ (v1 v2 : JSField JSNum) (t1 t2 : Int),
      t1 < t2 → now - ttl ≤ t1 → now - ttl ≤ t2 →
      DeltaSampler.average ⟨ttl, maxSamples, [⟨v1, t1⟩, ⟨v2, t2⟩]⟩ now =
        JSNum.fin 1000 * (v2.toNumber - v1.toNumber) / JSNum.ofInt (t2 - t1)) := by
  refine ⟨?_, ?_⟩
  · intro samples hlen
    rw [average_eq]
    rw [← liveEntries_length (now - ttl) samples 0] at hlen
    match hl : liveEntries (now - ttl) 0 samples, hlen with
    | [], _ => simp
    | [x], _ => simp
    | _ :: _ :: _, h => simp at h
  · intro v1 v2 t1 t2 _ h1 h2
    exact average_pair ttl maxSamples now v1 v2 t1 t2 h1 h2

/-- C1, on the buffers `[{5, 0}]` and `[{100, 0}, {300, 1000}]` read at time `1000` with a
    TTL of ten seconds: not-a-number, and `1000 * (300 - 100) / (1000 - 0)`. -/
theorem average_insufficient_or_two_witness :
    DeltaSampler.average ⟨10000, 60, [⟨JSField.val (JSNum.fin 5), 0⟩]⟩ 1000 = JSNum.nan ∧
    ((0 : Int) < 1000 ∧ (1000 : Int) - 10000 ≤ 0 ∧ (1000 : Int) - 10000 ≤ 1000) ∧
    DeltaSampler.average
        ⟨10000, 60,
          [⟨JSField.val (JSNum.fin 100), 0⟩, ⟨JSField.val (JSNum.fin 300), 1000⟩]⟩
        1000 =
      JSNum.fin 1000 * (JSNum.fin 300 - JSNum.fin 100) / JSNum.ofInt (1000 - 0) :=
  ⟨(average_insufficient_or_two 10000 60 1000).1 [⟨JSField.val (JSNum.fin 5), 0⟩] (by decide),
   by decide,
   (average_insufficient_or_two 10000 60 1000).2
     (JSField.val (JSNum.fin 100)) (JSField.val (JSNum.fin 300)) 0 1000
     (by decide) (by decide) (by decide)⟩

theorem record_samples (d : DeltaSampler) (hlen : (d.samples.length : Int) ≤ d.maxSamples)
    (v : JSField JSNum) (t : Int) :
    (d.record v t).samples =
      (d.samples ++ [Sample.mk v t]).drop (d.samples.length + 1 - d.maxSamples.toNat) := by
  by_cases h : ((d.samples ++ [Sample.mk v t]).length : Int) > d.maxSamples
  · simp only [DeltaSampler.record, h, if_true]
    have hk : d.samples.length + 1 - d.maxSamples.toNat = 1 := by
      simp only [List.length_append, List.length_singleton] at h
      omega
    rw [hk, List.drop_one]
  · simp only [DeltaSampler.record, h, if_false]
    have hk : d.samples.length + 1 - d.maxSamples.toNat = 0 := by
      simp only [List.length_append, List.length_singleton] at h
      omega
    rw [hk, List.drop_zero]

theorem record_length (d : DeltaSampler) (hmax : 1 ≤ d.maxSamples)
    (hlen : (d.samples.length : Int) ≤ d.maxSamples) (v : JSField JSNum) (t : Int) :
    ((d.record v t).samples.length : Int) ≤ d.maxSamples := by
  rw [record_samples d hlen]
  simp only [List.length_drop, List.length_append, List.length_singleton]
  omega

theorem sampleAll_samples (inputs : List (JSField JSNum × Int × Int)) :
    ∀ d : DeltaSampler, 1 ≤ d.maxSamples → (d.samples.length : Int) ≤ d.maxSamples →
      (d.sampleAll inputs).samples =
        (d.samples ++ inputs.map (fun x => Sample.mk x.1 x.2.1)).drop
          (d.samples.length + inputs.length - d.maxSamples.toNat) := by
  induction inputs with
  | nil =>
    intro d _ hlen
    have hk : d.samples.length - d.maxSamples.toNat = 0 := by omega
    simp [DeltaSampler.sampleAll, hk]
  | cons x rest ih =>
    intro d hmax hlen
    obtain ⟨v, tPush, tAvg⟩ := x
    have hrec := record_samples d hlen v tPush
    have hlen1 := record_length d hmax hlen v tPush
    have hmax1 : (d.record v tPush).maxSamples = d.maxSamples := rfl
    simp only [DeltaSampler.sampleAll, DeltaSampler.sample]
    rw [ih (d.record v tPush) (by rw [hmax1]; exact hmax) (by rw [hmax1]; exact hlen1), hmax1]
    simp only [List.map_cons, List.length_cons]
    by_cases h : (d.samples.length : Int) + 1 > d.maxSamples
    · have hk : d.samples.length + 1 - d.maxSamples.toNat = 1 := by omega
      have hne : d.samples ≠ [] := by
        intro h0
        rw [h0] at h
        simp at h
        omega
      obtain ⟨a, as, has⟩ := List.exists_cons_of_ne_nil hne
      rw [hrec, hk, has]
      have e1 : (a :: as).length + (rest.length + 1) - d.maxSamples.toNat =
          (as.length + 1 + rest.length - d.maxSamples.toNat) + 1 := by
        rw [has] at hlen h
        simp only [List.length_cons] at hlen h ⊢
        omega
      rw [e1]
      simp
    · have hk : d.samples.length + 1 - d.maxSamples.toNat = 0 := by omega
      rw [hrec, hk, List.drop_zero]
      have e1 : (d.samples ++ [Sample.mk v tPush]).length + rest.length - d.maxSamples.toNat =
          d.samples.length + (rest.length + 1) - d.maxSamples.toNat := by
        simp only [List.length_append, List.length_singleton]
        omega
      rw [e1]
      simp

/-- C2: on a sampler with `maxSamples >= 1` whose buffer holds at most `maxSamples`
    samples, `sample(value)` puts the new sample last, drops the oldest sample exactly
    when the length would otherwise exceed `maxSamples`, and leaves at most `maxSamples`
    samples; after any sequence of `sample()` calls the buffer is the last `maxSamples`
    (or all, if fewer) of the old and new samples, in insertion order. -/
theorem sample_keeps_most_recent (d : DeltaSampler) (hmax : 1 ≤ d.maxSamples)
    (hlen : (d.samples.length : Int) ≤ d.maxSamples) :
    (∀ (v : JSField JSNum) (tPush tAvg : Int),
      (d.sample v tPush tAvg).2.samples.getLast? = some (Sample.mk v tPush) ∧
      (d.sample v tPush tAvg).2.samples =
        (if (d.samples.length : Int) + 1 > d.maxSamples
          then d.samples.tail ++ [Sample.mk v tPush]
          else d.samples ++ [Sample.mk v tPush]) ∧
      ((d.samples.length : Int) + 1 > d.maxSamples → d.samples ≠ []) ∧
      (((d.sample v tPush tAvg).2.samples.length : Int) ≤ d.maxSamples) ∧
      (d.sample v tPush tAvg).2.maxSamples = d.maxSamples) ∧
    (∀ inputs : List (JSField JSNum × Int × Int),
      (d.sampleAll inputs).samples =
        (d.samples ++ inputs.map (fun x => Sample.mk x.1 x.2.1)).drop
          (d.samples.length + inputs.length - d.maxSamples.toNat) ∧
      ((d.sampleAll inputs).samples.length : Int) ≤ d.maxSamples) := by
  constructor
  · intro v tPush tAvg
    have hne : (d.samples.length : Int) + 1 > d.maxSamples → d.samples ≠ [] := by
      intro h h0
      rw [h0] at h
      simp at h
      omega
    have hs : (d.sample v tPush tAvg).2.samples =
        (if (d.samples.length : Int) + 1 > d.maxSamples
          then d.samples.tail ++ [Sample.mk v tPush]
          else d.samples ++ [Sample.mk v tPush]) := by
      by_cases h : (d.samples.length : Int) + 1 > d.maxSamples
      · obtain ⟨a, as, has⟩ := List.exists_cons_of_ne_nil (hne h)
        simp [DeltaSampler.sample, DeltaSampler.record, h, has]
      · simp [DeltaSampler.sample, DeltaSampler.record, h]
    refine ⟨?_, hs, hne, record_length d hmax hlen v tPush, rfl⟩
    rw [hs]
    split <;> simp
  · intro inputs
    have hs := sampleAll_samples inputs d hmax hlen
    refine ⟨hs, ?_⟩
    rw [hs]
    simp only [List.length_drop, List.length_append, List.length_map]
    omega

/-- C2, on a sampler with `maxSamples = 2` holding two samples: a third `sample` drops the
    oldest one, and three more calls leave the last two of them. -/
theorem sample_keeps_most_recent_witness :
    ((1 : Int) ≤ 2 ∧
      (([⟨JSField.val (JSNum.fin 1), 10⟩, ⟨JSField.val (JSNum.fin 2), 20⟩] :
        List Sample).length : Int) ≤ 2) ∧
    ((DeltaSampler.mk 10000 2
        [⟨JSField.val (JSNum.fin 1), 10⟩, ⟨JSField.val (JSNum.fin 2), 20⟩]).sample
        (JSField.val (JSNum.fin 3)) 30 31).2.samples =
      [⟨JSField.val (JSNum.fin 2), 20⟩, ⟨JSField.val (JSNum.fin 3), 30⟩] ∧
    ((DeltaSampler.mk 10000 2
        [⟨JSField.val (JSNum.fin 1), 10⟩, ⟨JSField.val (JSNum.fin 2), 20⟩]).sampleAll
        [(JSField.val (JSNum.fin 3), 30, 31), (JSField.val (JSNum.fin 4), 40, 41),
          (JSField.val (JSNum.fin 5), 50, 51)]).samples =
      [⟨JSField.val (JSNum.fin 4), 40⟩, ⟨JSField.val (JSNum.fin 5), 50⟩] := by
  have h := sample_keeps_most_recent
    (DeltaSampler.mk 10000 2
      [⟨JSField.val (JSNum.fin 1), 10⟩, ⟨JSField.val (JSNum.fin 2), 20⟩])
    (by decide) (by decide)
  refine ⟨by decide, ?_, ?_⟩
  · rw [(h.1 (JSField.val (JSNum.fin 3)) 30 31).2.1]
    rfl
  · rw [(h.2 [(JSField.val (JSNum.fin 3), 30, 31), (JSField.val (JSNum.fin 4), 40, 41),
      (JSField.val (JSNum.fin 5), 50, 51)]).1]
    rfl

/-! ## `replicationLagClass` -/

/-- C3 (as the code has it): on an `UPDATE_CORE_INFO`, whatever the previous value,
    `replicationLagClass` is green exactly when `generator_block_height` is non-null and
    `lag < 5` holds, every negative lag included; yellow exactly when it is non-null,
    `lag < 5` fails and `lag < 10` holds; red in every other case, in particular for a
    null or missing `generator_block_height`.  For finite heights `g`, `b` the three cases
    are `g - b < 5`, `5 ≤ g - b < 10` and `10 ≤ g - b`. -/
theorem replicationLagClass_thresholds (state : Option String) (p : Param) (g b : ℚ) :
    (replicationLagClass state (Action.UPDATE_CORE_INFO p) = some "green" ↔
      (p.generator_block_height.isNullish = false ∧
        (p.generator_block_height.toNumber - p.block_height.toNumber).lt (JSNum.fin 5)
          = true)) ∧
    (replicationLagClass state (Action.UPDATE_CORE_INFO p) = some "yellow" ↔
      (p.generator_block_height.isNullish = false ∧
        (p.generator_block_height.toNumber - p.block_height.toNumber).lt (JSNum.fin 5)
          = false ∧
        (p.generator_block_height.toNumber - p.block_height.toNumber).lt (JSNum.fin 10)
          = true)) ∧
    (replicationLagClass state (Action.UPDATE_CORE_INFO p) = some "red" ↔
      (p.generator_block_height.isNullish = true ∨
        ((p.generator_block_height.toNumber - p.block_height.toNumber).lt (JSNum.fin 5)
            = false ∧
          (p.generator_block_height.toNumber - p.block_height.toNumber).lt (JSNum.fin 10)
            = false))) ∧
    replicationLagClass state (Action.UPDATE_CORE_INFO
        { p with generator_block_height := JSField.val (JSNum.fin g),
                 block_height := JSField.val (JSNum.fin b) }) =
      (if g - b < 5 then some "green" else if g - b < 10 then some "yellow" else some "red") ∧
    replicationLagClass state (Action.UPDATE_CORE_INFO
        { p with generator_block_height := JSField.null }) = some "red" ∧
    replicationLagClass state (Action.UPDATE_CORE_INFO
        { p with generator_block_height := JSField.absent }) = some "red" := by
  refine ⟨?_, ?_, ?_, ?_, rfl, rfl⟩
  · cases h0 : p.generator_block_height.isNullish <;>
      cases h5 : (p.generator_block_height.toNumber - p.block_height.toNumber).lt
        (JSNum.fin 5) <;>
      cases h10 : (p.generator_block_height.toNumber - p.block_height.toNumber).lt
        (JSNum.fin 10) <;>
      simp [replicationLagClass, h0, h5, h10]
  · cases h0 : p.generator_block_height.isNullish <;>
      cases h5 : (p.generator_block_height.toNumber - p.block_height.toNumber).lt
        (JSNum.fin 5) <;>
      cases h10 : (p.generator_block_height.toNumber - p.block_height.toNumber).lt
        (JSNum.fin 10) <;>
      simp [replicationLagClass, h0, h5, h10]
  · cases h0 : p.generator_block_height.isNullish <;>
      cases h5 : (p.generator_block_height.toNumber - p.block_height.toNumber).lt
        (JSNum.fin 5) <;>
      cases h10 : (p.generator_block_height.toNumber - p.block_height.toNumber).lt
        (JSNum.fin 10) <;>
      simp [replicationLagClass, h0, h5, h10]
  · show (if (JSNum.sub (JSNum.fin g) (JSNum.fin b)).lt (JSNum.fin 5) = true then some "green"
      else if (JSNum.sub (JSNum.fin g) (JSNum.fin b)).lt (JSNum.fin 10) = true then some "yellow"
      else some "red") = _
    simp [JSNum.sub, JSNum.lt]

/-- C3 fails as stated: with `generator_block_height = 3` and `block_height = 5` the lag is
    `-2`, which is not in `0 ≤ lag < 5`, and the class is green, not red. -/
theorem replicationLagClass_negative_lag_green :
    replicationLagClass none (Action.UPDATE_CORE_INFO
        { generator_block_height := JSField.val (JSNum.fin 3),
          block_height := JSField.val (JSNum.fin 5) }) = some "green" ∧
    ¬ ((0 : ℚ) ≤ 3 - 5 ∧ (3 : ℚ) - 5 < 5) ∧
    ¬ (replicationLagClass none (Action.UPDATE_CORE_INFO
        { generator_block_height := JSField.val (JSNum.fin 3),
          block_height := JSField.val (JSNum.fin 5) }) = some "red") := by
  have h : replicationLagClass none (Action.UPDATE_CORE_INFO
        { generator_block_height := JSField.val (JSNum.fin 3),
          block_height := JSField.val (JSNum.fin 5) }) = some "green" := by
    show (if (JSNum.sub (JSNum.fin 3) (JSNum.fin 5)).lt (JSNum.fin 5) = true then some "green"
      else if (JSNum.sub (JSNum.fin 3) (JSNum.fin 5)).lt (JSNum.fin 10) = true then some "yellow"
      else some "red") = _
    simp [JSNum.sub, JSNum.lt]
    norm_num
  refine ⟨h, by norm_num, ?_⟩
  rw [h]
  simp

/-! ## `syncEstimates` -/

theorem syncEstimates_update_snapshot (init : Option SyncSamplers) (st : Estimates)
    (p : Param) (sn : Snapshot) (tPush tAvg : Int)
    (hp : p.snapshot = JSField.val sn) (hin : sn.in_progress.truthy = true) :
    syncEstimates init st (Action.UPDATE_CORE_INFO p) tPush tAvg =
      syncSnapshot (init.getD resetSyncEstimators) sn tPush tAvg := by
  cases init <;> simp [syncEstimates, hp, hin]

theorem syncEstimates_update_lag (init : Option SyncSamplers) (st : Estimates)
    (p : Param) (tPush tAvg : Int) (hno : snapshotInProgress p = false) :
    syncEstimates init st (Action.UPDATE_CORE_INFO p) tPush tAvg =
      syncReplicaLag (init.getD resetSyncEstimators) p tPush tAvg := by
  unfold snapshotInProgress at hno
  cases init <;> cases hs : p.snapshot <;> simp_all [syncEstimates]

/-- Division of finite numbers by a non-zero finite number. -/
theorem div_fin (a b : ℚ) (hb : b ≠ 0) : JSNum.fin a / JSNum.fin b = JSNum.fin (a / b) := by
  show JSNum.div (JSNum.fin a) (JSNum.fin b) = _
  simp only [JSNum.div, if_neg hb]

/-- C4: two consecutive `UPDATE_CORE_INFO` with `snapshot.in_progress` true, starting from
    freshly reset (or not yet created) samplers, recorded at times `t1 < t2` with the first
    sample still within the TTL when the second average is taken, with downloaded values
    `d1`, `d2` and current size `s`.  The speed is `1000 * (d2 - d1) / (t2 - t1)` and, when
    it passes `speed != 0`, the estimate object is `{snapshot: (s - d2) / speed}`, all in
    the operators of the code; for whole-number byte counts `d1 ≠ d2` it does pass; for
    `d1 = 100`, `d2 = 300`, `s = 1000` and `t2 - t1 = 1000` milliseconds the estimate is
    `3.5`. -/
theorem syncEstimates_snapshot_estimate
    (init : Option SyncSamplers) (hinit : init = none ∨ init = some resetSyncEstimators)
    (st0 : Estimates) (p1 p2 : Param) (sn1 sn2 : Snapshot) (d1 d2 s : ℚ) (t1 a1 t2 a2 : Int)
    (hp1 : p1.snapshot = JSField.val sn1) (hin1 : sn1.in_progress.truthy = true)
    (hd1 : sn1.downloaded = JSField.val (JSNum.fin d1))
    (hp2 : p2.snapshot = JSField.val sn2) (hin2 : sn2.in_progress.truthy = true)
    (hd2 : sn2.downloaded = JSField.val (JSNum.fin d2))
    (hs : sn2.size = JSField.val (JSNum.fin s))
    (ht : t1 < t2) (hlive : a2 - 10 * 1000 ≤ t1) :
    (syncEstimates (syncEstimates init st0 (Action.UPDATE_CORE_INFO p1) t1 a1).2
        (syncEstimates init st0 (Action.UPDATE_CORE_INFO p1) t1 a1).1
        (Action.UPDATE_CORE_INFO p2) t2 a2).1 =
      (if (JSNum.fin 1000 * (JSNum.fin d2 - JSNum.fin d1) / JSNum.ofInt (t2 - t1)).looseNe
          (JSNum.fin 0) = true
        then
          { snapshot := some ((JSNum.fin s - JSNum.fin d2) /
              (JSNum.fin 1000 * (JSNum.fin d2 - JSNum.fin d1) / JSNum.ofInt (t2 - t1))),
            replicaLag := none }
        else { snapshot := none, replicaLag := none }) ∧
    (∀ z1 z2 : Int, d1 = (z1 : ℚ) → d2 = (z2 : ℚ) → z1 ≠ z2 →
      (syncEstimates (syncEstimates init st0 (Action.UPDATE_CORE_INFO p1) t1 a1).2
          (syncEstimates init st0 (Action.UPDATE_CORE_INFO p1) t1 a1).1
          (Action.UPDATE_CORE_INFO p2) t2 a2).1 =
        { snapshot := some ((JSNum.fin s - JSNum.fin d2) /
            (JSNum.fin 1000 * (JSNum.fin d2 - JSNum.fin d1) / JSNum.ofInt (t2 - t1))),
          replicaLag := none }) ∧
    (d1 = 100 → d2 = 300 → s = 1000 → t2 - t1 = 1000 →
      (syncEstimates (syncEstimates init st0 (Action.UPDATE_CORE_INFO p1) t1 a1).2
          (syncEstimates init st0 (Action.UPDATE_CORE_INFO p1) t1 a1).1
          (Action.UPDATE_CORE_INFO p2) t2 a2).1.snapshot = some (JSNum.fin 3.5)) := by
  have hget : init.getD resetSyncEstimators = resetSyncEstimators := by
    rcases hinit with h | h <;> simp [h]
  have hfirst : (syncEstimates init st0 (Action.UPDATE_CORE_INFO p1) t1 a1).2 =
      some { snapshot := ⟨10 * 1000, 60, [⟨JSField.val (JSNum.fin d1), t1⟩]⟩,
             replicaLag := DeltaSampler.create (10 * 1000) 60 } := by
    rw [syncEstimates_update_snapshot init st0 p1 sn1 t1 a1 hp1 hin1, hget]
    simp [syncSnapshot, resetSyncEstimators, DeltaSampler.sample, DeltaSampler.record,
      DeltaSampler.create, hd1]
  have hA : (syncEstimates (syncEstimates init st0 (Action.UPDATE_CORE_INFO p1) t1 a1).2
        (syncEstimates init st0 (Action.UPDATE_CORE_INFO p1) t1 a1).1
        (Action.UPDATE_CORE_INFO p2) t2 a2).1 =
      (if (JSNum.fin 1000 * (JSNum.fin d2 - JSNum.fin d1) / JSNum.ofInt (t2 - t1)).looseNe
          (JSNum.fin 0) = true
        then
          { snapshot := some ((JSNum.fin s - JSNum.fin d2) /
              (JSNum.fin 1000 * (JSNum.fin d2 - JSNum.fin d1) / JSNum.ofInt (t2 - t1))),
            replicaLag := none }
        else { snapshot := none, replicaLag := none }) := by
    rw [syncEstimates_update_snapshot _ _ p2 sn2 t2 a2 hp2 hin2, hfirst]
    have hrec : (DeltaSampler.mk (10 * 1000) 60 [⟨JSField.val (JSNum.fin d1), t1⟩]).record
        (JSField.val (JSNum.fin d2)) t2 =
        ⟨10 * 1000, 60,
          [⟨JSField.val (JSNum.fin d1), t1⟩, ⟨JSField.val (JSNum.fin d2), t2⟩]⟩ := by
      simp [DeltaSampler.record]
    have havg : ((DeltaSampler.mk (10 * 1000) 60 [⟨JSField.val (JSNum.fin d1), t1⟩]).sample
        (JSField.val (JSNum.fin d2)) t2 a2).1 =
        JSNum.fin 1000 * (JSNum.fin d2 - JSNum.fin d1) / JSNum.ofInt (t2 - t1) := by
      simp only [DeltaSampler.sample, hrec]
      exact average_pair (10 * 1000) 60 a2 _ _ t1 t2 hlive (by omega)
    simp only [syncSnapshot, Option.getD_some, hd2, hs, havg, JSField.toNumber]
  have ht0 : ((t2 - t1 : Int) : ℚ) ≠ 0 := by
    have : t2 - t1 ≠ 0 := by omega
    exact_mod_cast this
  have hspeed : JSNum.fin 1000 * (JSNum.fin d2 - JSNum.fin d1) / JSNum.ofInt (t2 - t1) =
      JSNum.fin (1000 * (d2 - d1) / ((t2 - t1 : Int) : ℚ)) := rate_fin d1 d2 t1 t2 (by omega)
  have hpass : d1 ≠ d2 →
      (JSNum.fin 1000 * (JSNum.fin d2 - JSNum.fin d1) / JSNum.ofInt (t2 - t1)).looseNe
        (JSNum.fin 0) = true := by
    intro hd
    have h2 : d2 - d1 ≠ 0 := fun h => hd (by linarith)
    have h3 : (1000 : ℚ) * (d2 - d1) ≠ 0 := mul_ne_zero (by norm_num) h2
    rw [hspeed]
    simp only [JSNum.looseNe, decide_eq_true_eq]
    intro h
    exact div_ne_zero h3 ht0 (JSNum.fin.inj h)
  refine ⟨hA, ?_, ?_⟩
  · intro z1 z2 e1 e2 hz
    have hd : d1 ≠ d2 := by
      rw [e1, e2]
      exact_mod_cast hz
    rw [hA, if_pos (hpass hd)]
  · intro e1 e2 e3 e4
    have hd : d1 ≠ d2 := by rw [e1, e2]; norm_num
    rw [hA, if_pos (hpass hd), hspeed]
    show some (JSNum.sub (JSNum.fin s) (JSNum.fin d2) / _) = _
    have hq : 1000 * (d2 - d1) / ((t2 - t1 : Int) : ℚ) ≠ 0 := by
      have h2 : d2 - d1 ≠ 0 := fun h => hd (by linarith)
      exact div_ne_zero (mul_ne_zero (by norm_num) h2) ht0
    simp only [JSNum.sub]
    rw [div_fin _ _ hq, e1, e2, e3, e4]
    norm_num

/-- C4, on the scenario `{in_progress: true, downloaded: 100, size: 1000}` at time `0`, then
    `{in_progress: true, downloaded: 300, size: 1000}` at time `1000`: the estimate is
    `3.5` seconds. -/
theorem syncEstimates_snapshot_estimate_witness :
    ((0 : Int) < 1000 ∧ (1000 : Int) - 10 * 1000 ≤ 0) ∧
    (syncEstimates
        (syncEstimates none {} (Action.UPDATE_CORE_INFO (transferInfo 100 1000)) 0 0).2
        (syncEstimates none {} (Action.UPDATE_CORE_INFO (transferInfo 100 1000)) 0 0).1
        (Action.UPDATE_CORE_INFO (transferInfo 300 1000)) 1000 1000).1.snapshot =
      some (JSNum.fin 3.5) :=
  ⟨⟨by decide, by decide⟩,
   (syncEstimates_snapshot_estimate none (Or.inl rfl) {} (transferInfo 100 1000)
      (transferInfo 300 1000) (transfer 100 1000) (transfer 300 1000) 100 300 1000 0 0 1000 1000
      rfl rfl rfl rfl rfl rfl rfl (by decide) (by decide)).2.2
      rfl rfl rfl (by decide)⟩

/-- A number that passes `> 0` is `Infinity` or a positive finite number. -/
theorem gt_zero_iff (x : JSNum) :
    x.gt (JSNum.fin 0) = true ↔ x = JSNum.posInf ∨ ∃ q : ℚ, 0 < q ∧ x = JSNum.fin q := by
  cases x <;> simp [JSNum.gt, JSNum.lt]

/-- C5: on an `UPDATE_CORE_INFO` with no snapshot transfer in progress, with
    `lag = generator_block_height - block_height` and `speed` the value returned by sampling
    `lag` into the replica-lag estimator, the estimate object has a `replicaLag` entry
    exactly when `speed` is a number other than `0` and `-1 * lag / speed > 0`, the entry is
    then that quotient, there is no `snapshot` entry, and every `replicaLag` entry is
    strictly positive. -/
theorem syncEstimates_replicaLag_estimate (init : Option SyncSamplers) (st : Estimates)
    (p : Param) (tPush tAvg : Int) (hno : snapshotInProgress p = false) :
    (syncEstimates init st (Action.UPDATE_CORE_INFO p) tPush tAvg).1.replicaLag =
      (if ((init.getD resetSyncEstimators).replicaLag.sample
              (JSField.val (p.generator_block_height.toNumber - p.block_height.toNumber))
              tPush tAvg).1 ≠ JSNum.nan ∧
          ((init.getD resetSyncEstimators).replicaLag.sample
              (JSField.val (p.generator_block_height.toNumber - p.block_height.toNumber))
              tPush tAvg).1 ≠ JSNum.fin 0 ∧
          (JSNum.fin (-1) * (p.generator_block_height.toNumber - p.block_height.toNumber) /
            ((init.getD resetSyncEstimators).replicaLag.sample
              (JSField.val (p.generator_block_height.toNumber - p.block_height.toNumber))
              tPush tAvg).1).gt (JSNum.fin 0) = true
        then some (JSNum.fin (-1) *
          (p.generator_block_height.toNumber - p.block_height.toNumber) /
            ((init.getD resetSyncEstimators).replicaLag.sample
              (JSField.val (p.generator_block_height.toNumber - p.block_height.toNumber))
              tPush tAvg).1)
        else none) ∧
    (syncEstimates init st (Action.UPDATE_CORE_INFO p) tPush tAvg).1.snapshot = none ∧
    (∀ x : JSNum,
      (syncEstimates init st (Action.UPDATE_CORE_INFO p) tPush tAvg).1.replicaLag = some x →
        x.gt (JSNum.fin 0) = true ∧
          (x = JSNum.posInf ∨ ∃ q : ℚ, 0 < q ∧ x = JSNum.fin q)) := by
  rw [syncEstimates_update_lag init st p tPush tAvg hno]
  generalize hlag : p.generator_block_height.toNumber - p.block_height.toNumber = lag
  generalize hsp : ((init.getD resetSyncEstimators).replicaLag.sample (JSField.val lag)
    tPush tAvg).1 = speed
  have key : (syncReplicaLag (init.getD resetSyncEstimators) p tPush tAvg).1 =
      (if speed.looseNe (JSNum.fin 0) = true then
        (if (JSNum.fin (-1) * lag / speed).gt (JSNum.fin 0) = true
          then { replicaLag := some (JSNum.fin (-1) * lag / speed) } else {})
       else ({} : Estimates)) := by
    simp only [syncReplicaLag, hlag, hsp]
  rw [key]
  cases hd : (JSNum.fin (-1) * lag / speed).gt (JSNum.fin 0)
  · refine ⟨?_, ?_, ?_⟩
    · split <;> simp
    · split <;> rfl
    · intro x hx
      split at hx <;> simp at hx
  · have hnan : speed ≠ JSNum.nan := by
      intro h
      rw [h] at hd
      have : JSNum.fin (-1) * lag / JSNum.nan = JSNum.nan := by
        show JSNum.div (JSNum.mul (JSNum.fin (-1)) lag) JSNum.nan = JSNum.nan
        cases JSNum.mul (JSNum.fin (-1)) lag <;> rfl
      rw [this] at hd
      simp [JSNum.gt, JSNum.lt] at hd
    by_cases h0 : speed = JSNum.fin 0
    · subst h0
      have hl : (JSNum.fin 0).looseNe (JSNum.fin 0) = false := by
        simp [JSNum.looseNe]
      refine ⟨?_, ?_, ?_⟩
      · simp [hl]
      · simp [hl]
      · intro x hx
        simp [hl] at hx
    · have hl : speed.looseNe (JSNum.fin 0) = true := by
        cases speed <;> simp_all [JSNum.looseNe]
      refine ⟨?_, ?_, ?_⟩
      · simp [hl, hnan, h0]
      · simp [hl]
      · intro x hx
        simp only [hl, if_true] at hx
        have hx1 : x = JSNum.fin (-1) * lag / speed := by
          simpa using hx.symm
        rw [hx1]
        exact ⟨hd, (gt_zero_iff _).1 hd⟩

/-- C5, with one earlier lag sample `{10, 0}` and the heights `105`, `100` at time `1000`:
    the lag `5` shrinks by `5` per second and the estimate is `1` second. -/
theorem syncEstimates_replicaLag_estimate_witness :
    snapshotInProgress
        (heights (JSField.val (JSNum.fin 105)) (JSField.val (JSNum.fin 100))) = false ∧
    (syncEstimates (some (lagSamplers [⟨JSField.val (JSNum.fin 10), 0⟩])) {}
        (Action.UPDATE_CORE_INFO
          (heights (JSField.val (JSNum.fin 105)) (JSField.val (JSNum.fin 100))))
        1000 1000).1.replicaLag = some (JSNum.fin 1) ∧
    (JSNum.fin 1).gt (JSNum.fin 0) = true := by
  have hval : (syncEstimates (some (lagSamplers [⟨JSField.val (JSNum.fin 10), 0⟩])) {}
        (Action.UPDATE_CORE_INFO
          (heights (JSField.val (JSNum.fin 105)) (JSField.val (JSNum.fin 100))))
        1000 1000).1.replicaLag = some (JSNum.fin 1) := by
    norm_num [syncEstimates, heights, lagSamplers, syncReplicaLag, resetSyncEstimators,
      DeltaSampler.sample, DeltaSampler.record, DeltaSampler.average, DeltaSampler.scanFrom,
      DeltaSampler.scanStep, DeltaSampler.create, JSField.toNumber, JSField.truthy,
      JSNum.looseNe, JSNum.gt, JSNum.lt, JSNum.ofInt, sub_def, mul_def, div_def, JSNum.sub,
      JSNum.mul, JSNum.div]
  exact ⟨rfl, hval,
    ((syncEstimates_replicaLag_estimate (some (lagSamplers [⟨JSField.val (JSNum.fin 10), 0⟩]))
      {} (heights (JSField.val (JSNum.fin 105)) (JSField.val (JSNum.fin 100))) 1000 1000
      rfl).2.2 (JSNum.fin 1) hval).1⟩

/-- On a buffer of one sample `average()` is not-a-number, expired or not. -/
theorem average_singleton (ttl maxSamples now : Int) (x : Sample) :
    DeltaSampler.average ⟨ttl, maxSamples, [x]⟩ now = JSNum.nan := by
  by_cases h : x.time < now - ttl <;>
    simp [DeltaSampler.average, DeltaSampler.scanFrom, DeltaSampler.scanStep, h]

/-- Sampling into a fresh estimator with the default `maxSamples` leaves exactly the new
    sample and returns not-a-number. -/
theorem sample_fresh (ttl : Int) (v : JSField JSNum) (tPush tAvg : Int) :
    (DeltaSampler.create ttl 60).sample v tPush tAvg =
      (JSNum.nan, ⟨ttl, 60, [⟨v, tPush⟩]⟩) := by
  have hrec : (DeltaSampler.create ttl 60).record v tPush = ⟨ttl, 60, [⟨v, tPush⟩]⟩ := by
    simp [DeltaSampler.record, DeltaSampler.create]
  simp only [DeltaSampler.sample, hrec, average_singleton]

/-- C6: on `CORE_DISCONNECT` and on `USER_LOG_OUT`, whatever the previous estimate and the
    previous samplers, `syncEstimates` returns `{}` and installs two fresh empty samplers;
    the next `sample` on either of them holds exactly the new sample and yields
    not-a-number, and the outcome of the next `UPDATE_CORE_INFO` is the one obtained from
    fresh samplers, independent of what was there before the reset. -/
theorem syncEstimates_reset (samplers : Option SyncSamplers) (state : Estimates)
    (tPush tAvg : Int) (v : JSField JSNum) (p : Param) (t2 a2 : Int) :
    syncEstimates samplers state Action.CORE_DISCONNECT tPush tAvg =
      ({}, some resetSyncEstimators) ∧
    syncEstimates samplers state Action.USER_LOG_OUT tPush tAvg =
      ({}, some resetSyncEstimators) ∧
    resetSyncEstimators.snapshot.samples = [] ∧
    resetSyncEstimators.replicaLag.samples = [] ∧
    resetSyncEstimators.snapshot.sample v t2 a2 =
      (JSNum.nan, ⟨10 * 1000, 60, [⟨v, t2⟩]⟩) ∧
    resetSyncEstimators.replicaLag.sample v t2 a2 =
      (JSNum.nan, ⟨10 * 1000, 60, [⟨v, t2⟩]⟩) ∧
    syncEstimates (syncEstimates samplers state Action.CORE_DISCONNECT tPush tAvg).2
        (syncEstimates samplers state Action.CORE_DISCONNECT tPush tAvg).1
        (Action.UPDATE_CORE_INFO p) t2 a2 =
      syncEstimates (some resetSyncEstimators) {} (Action.UPDATE_CORE_INFO p) t2 a2 ∧
    syncEstimates (syncEstimates samplers state Action.USER_LOG_OUT tPush tAvg).2
        (syncEstimates samplers state Action.USER_LOG_OUT tPush tAvg).1
        (Action.UPDATE_CORE_INFO p) t2 a2 =
      syncEstimates (some resetSyncEstimators) {} (Action.UPDATE_CORE_INFO p) t2 a2 :=
  ⟨rfl, rfl, rfl, rfl, sample_fresh _ v t2 a2, sample_fresh _ v t2 a2, rfl, rfl⟩

/-- C7 fails on the snapshot path: the first `UPDATE_CORE_INFO` after creation with a
    transfer in progress samples once, gets not-a-number, passes `speed != 0` and stores
    not-a-number under `snapshot`; on the replica-lag path the same situation gives `{}`. -/
theorem syncEstimates_first_update_snapshot_nan :
    (syncEstimates none {} (Action.UPDATE_CORE_INFO (transferInfo 100 1000)) 0 0).1 =
      { snapshot := some JSNum.nan, replicaLag := none } ∧
    (syncEstimates none {}
        (Action.UPDATE_CORE_INFO
          (heights (JSField.val (JSNum.fin 105)) (JSField.val (JSNum.fin 100)))) 0 0).1 =
      { snapshot := none, replicaLag := none } := by
  constructor
  · norm_num [syncEstimates, transferInfo, transfer, syncSnapshot, resetSyncEstimators,
      sample_fresh, JSField.toNumber, JSField.truthy, JSNum.looseNe, sub_def, div_def,
      JSNum.sub, JSNum.div]
  · norm_num [syncEstimates, heights, syncReplicaLag, resetSyncEstimators,
      sample_fresh, JSField.toNumber, JSNum.looseNe, JSNum.gt, JSNum.lt, sub_def, mul_def,
      div_def, JSNum.sub, JSNum.mul, JSNum.div]

/-! ## Session fields -/

/-- C8: `SET_CLIENT_TOKEN` sets `clientToken` to the token and `validToken` to false;
    `USER_LOG_IN` sets `validToken` to true and leaves `clientToken`; `USER_LOG_OUT` sets
    `clientToken` to `''` and `validToken` to false; `ERROR` with status `401` sets
    `clientToken` to `''`, `validToken` to false and `requireClientToken` to true; every
    other action, `ERROR` with another status included, leaves the three fields as they
    were.  The run `SET_CLIENT_TOKEN "abc"`, `USER_LOG_IN`, `ERROR 401` ends in
    `''`, false, true. -/
theorem session_transitions (s : SessionState) (token : String) (status : Int) (p : Param) :
    sessionReducer s (Action.SET_CLIENT_TOKEN token) =
      { s with clientToken := token, validToken := false } ∧
    sessionReducer s Action.USER_LOG_IN = { s with validToken := true } ∧
    sessionReducer s Action.USER_LOG_OUT = { s with clientToken := "", validToken := false } ∧
    sessionReducer s (Action.ERROR 401) =
      { clientToken := "", validToken := false, requireClientToken := true } ∧
    sessionReducer s (Action.ERROR status) =
      (if status = 401
        then { clientToken := "", validToken := false, requireClientToken := true }
        else s) ∧
    sessionReducer s (Action.UPDATE_CORE_INFO p) = s ∧
    sessionReducer s Action.CORE_DISCONNECT = s ∧
    sessionReducer s Action.other = s ∧
    sessionReducer s (Action.SET_CLIENT_TOKEN "abc") =
      { s with clientToken := "abc", validToken := false } ∧
    sessionReducer (sessionReducer s (Action.SET_CLIENT_TOKEN "abc")) Action.USER_LOG_IN =
      { s with clientToken := "abc", validToken := true } ∧
    [Action.SET_CLIENT_TOKEN "abc", Action.USER_LOG_IN, Action.ERROR 401].foldl
        sessionReducer s =
      { clientToken := "", validToken := false, requireClientToken := true } := by
  refine ⟨rfl, rfl, rfl, rfl, ?_, rfl, rfl, rfl, rfl, rfl, rfl⟩
  by_cases h : status = 401 <;>
    simp [sessionReducer, clientToken, validToken, requireClientToken, h]

/-- C9 fails: with `generator_block_height` null and no transfer in progress the lag
    `null - block_height = -block_height` is sampled.  From fresh samplers the update
    `{generator_block_height: null, block_height: 7}` leaves the sample `{-7, 1000}` in the
    replica-lag buffer; after the sample `{-10, 0}` the update
    `{generator_block_height: null, block_height: 5}` at time `1000` even reports the
    estimate `1`. -/
theorem syncEstimates_null_generator_height_sampled :
    syncEstimates none {}
        (Action.UPDATE_CORE_INFO (heights JSField.null (JSField.val (JSNum.fin 7))))
        1000 1000 =
      ({}, some (lagSamplers [⟨JSField.val (JSNum.fin (-7)), 1000⟩])) ∧
    lagSamplers [⟨JSField.val (JSNum.fin (-7)), 1000⟩] ≠ resetSyncEstimators ∧
    syncEstimates none {}
        (Action.UPDATE_CORE_INFO (heights JSField.null (JSField.val (JSNum.fin 10))))
        0 0 =
      ({}, some (lagSamplers [⟨JSField.val (JSNum.fin (-10)), 0⟩])) ∧
    syncEstimates (some (lagSamplers [⟨JSField.val (JSNum.fin (-10)), 0⟩])) {}
        (Action.UPDATE_CORE_INFO (heights JSField.null (JSField.val (JSNum.fin 5))))
        1000 1000 =
      ({ snapshot := none, replicaLag := some (JSNum.fin 1) },
        some (lagSamplers
          [⟨JSField.val (JSNum.fin (-10)), 0⟩, ⟨JSField.val (JSNum.fin (-5)), 1000⟩])) := by
  refine ⟨?_, ?_, ?_, ?_⟩
  · norm_num [syncEstimates, heights, lagSamplers, syncReplicaLag, resetSyncEstimators,
      sample_fresh, JSField.toNumber, JSNum.looseNe, JSNum.gt, JSNum.lt, sub_def, mul_def,
      div_def, JSNum.sub, JSNum.mul, JSNum.div]
  · simp [lagSamplers, resetSyncEstimators, DeltaSampler.create]
  · norm_num [syncEstimates, heights, lagSamplers, syncReplicaLag, resetSyncEstimators,
      sample_fresh, JSField.toNumber, JSNum.looseNe, JSNum.gt, JSNum.lt, sub_def, mul_def,
      div_def, JSNum.sub, JSNum.mul, JSNum.div]
  · norm_num [syncEstimates, heights, lagSamplers, syncReplicaLag, resetSyncEstimators,
      DeltaSampler.sample, DeltaSampler.record, DeltaSampler.average, DeltaSampler.scanFrom,
      DeltaSampler.scanStep, DeltaSampler.create, JSField.toNumber, JSField.truthy,
      JSNum.looseNe, JSNum.gt, JSNum.lt, JSNum.ofInt, sub_def, mul_def, div_def, JSNum.sub,
      JSNum.mul, JSNum.div]

/-! ## Division by a zero time difference -/

/-- C10 fails as stated: two `sample()` calls in the same millisecond store two distinct
    samples with equal timestamps, the divisor is `0`, and the average is `Infinity`. -/
theorem average_same_timestamp_infinite :
    (((DeltaSampler.create (10 * 1000) 60).sample (JSField.val (JSNum.fin 0)) 5 5).2.sample
        (JSField.val (JSNum.fin 1)) 5 5).1 = JSNum.posInf ∧
    (((DeltaSampler.create (10 * 1000) 60).sample (JSField.val (JSNum.fin 0)) 5 5).2.sample
        (JSField.val (JSNum.fin 1)) 5 5).2.samples =
      [⟨JSField.val (JSNum.fin 0), 5⟩, ⟨JSField.val (JSNum.fin 1), 5⟩] ∧
    JSNum.ofInt (5 - 5) = JSNum.fin 0 := by
  refine ⟨?_, ?_, ?_⟩
  · norm_num [DeltaSampler.sample, DeltaSampler.record, DeltaSampler.average,
      DeltaSampler.scanFrom, DeltaSampler.scanStep, DeltaSampler.create, JSField.toNumber,
      JSNum.ofInt, sub_def, mul_def, div_def, JSNum.sub, JSNum.mul, JSNum.div]
  · simp [DeltaSampler.sample, DeltaSampler.record, DeltaSampler.create]
  · simp [JSNum.ofInt]

/-! ## `average()` and expired samples -/

theorem liveEntries_map_snd (cutoff : Int) (xs : List Sample) (i : Nat) :
    (liveEntries cutoff i xs).map Prod.snd = xs.filter (live cutoff) := by
  induction xs generalizing i with
  | nil => rfl
  | cons s rest ih =>
    rw [liveEntries_cons, List.filter_cons]
    cases h : live cutoff s <;> simp [ih]

theorem liveEntries_index_ge (cutoff : Int) (xs : List Sample) (i : Nat) (q : Nat × Sample)
    (h : q ∈ liveEntries cutoff i xs) : i ≤ q.1 := by
  have h1 : (q.1, q.2) ∈ xs.enumFrom i := (List.mem_filter.1 h).1
  exact (List.mem_enumFrom h1).1

/-- The first non-expired entry has a smaller index than every later one. -/
theorem liveEntries_head_index_lt (cutoff : Int) (xs : List Sample) :
    ∀ (i : Nat) (a : Nat × Sample) (tl : List (Nat × Sample)),
      liveEntries cutoff i xs = a :: tl → ∀ q ∈ tl, a.1 < q.1 := by
  induction xs with
  | nil =>
    intro i a tl h
    simp [liveEntries_nil] at h
  | cons s rest ih =>
    intro i a tl h q hq
    rw [liveEntries_cons] at h
    cases hl : live cutoff s
    · rw [hl] at h
      exact ih (i + 1) a tl h q hq
    · rw [hl] at h
      simp only [if_true, List.cons.injEq] at h
      obtain ⟨ha, htl⟩ := h
      rw [← htl] at hq
      have := liveEntries_index_ge cutoff rest (i + 1) q hq
      rw [← ha]
      show i < q.1
      omega

/-- The result of `average()` depends on the non-expired samples only. -/
theorem average_eq_rateOfLive (d : DeltaSampler) (now : Int) :
    d.average now = rateOfLive (d.samples.filter (live (now - d.sampleTtl))) := by
  rw [average_eq, ← liveEntries_map_snd (now - d.sampleTtl) d.samples 0]
  match hL : liveEntries (now - d.sampleTtl) 0 d.samples with
  | [] => rfl
  | [x] => simp [rateOfLive]
  | a :: b :: tl =>
    have hlast : (a :: b :: tl).getLast? = some ((b :: tl).getLast (List.cons_ne_nil b tl)) := by
      rw [List.getLast?_cons_cons, List.getLast?_eq_getLast _ (List.cons_ne_nil b tl)]
    have hne : a.1 ≠ ((b :: tl).getLast (List.cons_ne_nil b tl)).1 :=
      Nat.ne_of_lt (liveEntries_head_index_lt _ _ 0 a (b :: tl) hL _
        (List.getLast_mem (List.cons_ne_nil b tl)))
    rw [hlast]
    simp only [List.head?_cons, List.map_cons, rateOfLive]
    obtain ⟨i, e⟩ := a
    rw [if_neg hne]
    congr 1
    have := List.getLast_map (f := Prod.snd) (l := b :: tl) (by simp)
    simpa using this.symm

theorem rateOfLive_first_last (e l : Sample) (mid : List Sample) :
    rateOfLive (e :: (mid ++ [l])) = rate e l := by
  cases mid with
  | nil => simp [rateOfLive]
  | cons y rest => simp [rateOfLive]

/-- C12: `average()` ignores expired samples: its result is the result on the buffer with
    every sample of `time < now - sampleTtl` removed, and when the remaining samples are
    `e`, some samples `mid`, `l` in buffer order, it is
    `1000 * (l.value - e.value) / (l.time - e.time)` whatever `mid` is. -/
theorem average_ignores_expired (d : DeltaSampler) (now : Int) :
    d.average now =
      DeltaSampler.average
        { d with samples := d.samples.filter (live (now - d.sampleTtl)) } now ∧
    (∀ (e l : Sample) (mid : List Sample),
      d.samples.filter (live (now - d.sampleTtl)) = e :: (mid ++ [l]) →
        d.average now =
          JSNum.fin 1000 * (l.value.toNumber - e.value.toNumber) /
            JSNum.ofInt (l.time - e.time) ∧
        ∀ mid2 : List Sample,
          DeltaSampler.average ⟨d.sampleTtl, d.maxSamples, e :: (mid2 ++ [l])⟩ now =
            d.average now) := by
  constructor
  · rw [average_eq_rateOfLive, average_eq_rateOfLive]
    simp only [List.filter_filter, Bool.and_self]
  · intro e l mid hF
    have hrate : d.average now = rate e l := by
      rw [average_eq_rateOfLive, hF, rateOfLive_first_last]
    refine ⟨hrate, ?_⟩
    intro mid2
    have hmem : ∀ x ∈ d.samples.filter (live (now - d.sampleTtl)),
        live (now - d.sampleTtl) x = true := fun x hx => (List.mem_filter.1 hx).2
    have he : live (now - d.sampleTtl) e = true := hmem e (by rw [hF]; simp)
    have hl : live (now - d.sampleTtl) l = true := hmem l (by rw [hF]; simp)
    rw [hrate, average_eq_rateOfLive]
    simp only [List.filter_cons, he, if_true, List.filter_append, hl, List.filter_nil]
    exact rateOfLive_first_last e l _

/-- C12, on the buffer `[{1, 0}, {100, 5000}, {7, 6000}, {300, 6000}]` read at time `11000`
    with a TTL of ten seconds: the first sample is expired, and the average is the rate
    between `{100, 5000}` and `{300, 6000}`. -/
theorem average_ignores_expired_witness :
    ([⟨JSField.val (JSNum.fin 1), 0⟩, ⟨JSField.val (JSNum.fin 100), 5000⟩,
        ⟨JSField.val (JSNum.fin 7), 6000⟩, ⟨JSField.val (JSNum.fin 300), 6000⟩] :
      List Sample).filter (live (11000 - 10000)) =
      ⟨JSField.val (JSNum.fin 100), 5000⟩ ::
        ([⟨JSField.val (JSNum.fin 7), 6000⟩] ++ [⟨JSField.val (JSNum.fin 300), 6000⟩]) ∧
    DeltaSampler.average
        ⟨10000, 60,
          [⟨JSField.val (JSNum.fin 1), 0⟩, ⟨JSField.val (JSNum.fin 100), 5000⟩,
            ⟨JSField.val (JSNum.fin 7), 6000⟩, ⟨JSField.val (JSNum.fin 300), 6000⟩]⟩ 11000 =
      JSNum.fin 1000 * (JSNum.fin 300 - JSNum.fin 100) / JSNum.ofInt (6000 - 5000) :=
  ⟨by decide,
   ((average_ignores_expired
      ⟨10000, 60,
        [⟨JSField.val (JSNum.fin 1), 0⟩, ⟨JSField.val (JSNum.fin 100), 5000⟩,
          ⟨JSField.val (JSNum.fin 7), 6000⟩, ⟨JSField.val (JSNum.fin 300), 6000⟩]⟩ 11000).2
      ⟨JSField.val (JSNum.fin 100), 5000⟩ ⟨JSField.val (JSNum.fin 300), 6000⟩
      [⟨JSField.val (JSNum.fin 7), 6000⟩] (by decide)).1⟩

/-! ## `coreType`, `replicationLag`, `generatorBlockHeight` -/

/-- C13: on an `UPDATE_CORE_INFO`, whatever the previous value, `coreType` is `Generator`
    if `is_generator` is set, otherwise `Signer` if `is_signer` is set, otherwise
    `Participant`; updates with `is_generator` true, then false, then true give
    `Generator`, then `Signer` or `Participant`, then `Generator`. -/
theorem coreType_recomputed (state state2 : JSValue) (p p1 p2 p3 : Param) :
    coreType state (Action.UPDATE_CORE_INFO p) =
      (if p.is_generator.truthy then JSValue.str "Generator"
        else if p.is_signer.truthy then JSValue.str "Signer"
        else JSValue.str "Participant") ∧
    coreType state (Action.UPDATE_CORE_INFO p) = coreType state2 (Action.UPDATE_CORE_INFO p) ∧
    coreType state (Action.UPDATE_CORE_INFO { p with is_generator := JSField.val true }) =
      JSValue.str "Generator" ∧
    coreType state (Action.UPDATE_CORE_INFO
        { p with is_generator := JSField.val false, is_signer := JSField.val true }) =
      JSValue.str "Signer" ∧
    coreType state (Action.UPDATE_CORE_INFO
        { p with is_generator := JSField.val false, is_signer := JSField.val false }) =
      JSValue.str "Participant" ∧
    coreType state (Action.UPDATE_CORE_INFO
        { p with is_generator := JSField.absent, is_signer := JSField.absent }) =
      JSValue.str "Participant" ∧
    coreType (coreType state
          (Action.UPDATE_CORE_INFO { p1 with is_generator := JSField.val true }))
        (Action.UPDATE_CORE_INFO { p2 with is_generator := JSField.val false }) =
      (if p2.is_signer.truthy then JSValue.str "Signer" else JSValue.str "Participant") ∧
    coreType (coreType (coreType state
            (Action.UPDATE_CORE_INFO { p1 with is_generator := JSField.val true }))
          (Action.UPDATE_CORE_INFO { p2 with is_generator := JSField.val false }))
        (Action.UPDATE_CORE_INFO { p3 with is_generator := JSField.val true }) =
      JSValue.str "Generator" :=
  ⟨rfl, rfl, rfl, rfl, rfl, rfl, rfl, rfl⟩

theorem printNumber_int (n : Int) : printNumber (JSNum.fin (n : ℚ)) = toString n := by
  simp [printNumber]

/-- C14 (as the code has it): on an `UPDATE_CORE_INFO` with a null or missing
    `generator_block_height`, whatever the previous values, `replicationLag` and
    `generatorBlockHeight` are the string `"???"` and `replicationLagClass` is red.
    Otherwise `replicationLag` is the string of the number
    `generator_block_height - block_height`: for whole-number heights `g` and `b` that,
    like their difference, are at most `2^53` in absolute value (so that binary64 holds
    all three exactly) it is the decimal string of `g - b`, negative differences
    included; a null `block_height` counts as `0`; with
    `block_height` missing the difference is not a number and the string is `"NaN"`.
    The number-to-string conversion is assumed to print the integers up to `2^53` in
    decimal and not-a-number as `NaN`. -/
theorem unknown_generator_height (numberToString : JSNum → String)
    (hprint : ∀ n : Int, n.natAbs ≤ 2 ^ 53 → numberToString (JSNum.fin (n : ℚ)) = toString n)
    (hnan : numberToString JSNum.nan = "NaN")
    (state : JSValue) (stateClass : Option String) (p : Param) (g b : Int)
    (hg : g.natAbs ≤ 2 ^ 53) (_hb : b.natAbs ≤ 2 ^ 53) (hgb : (g - b).natAbs ≤ 2 ^ 53) :
    (replicationLag numberToString state (Action.UPDATE_CORE_INFO
        { p with generator_block_height := JSField.null }) = JSValue.str "???" ∧
      replicationLag numberToString state (Action.UPDATE_CORE_INFO
        { p with generator_block_height := JSField.absent }) = JSValue.str "???" ∧
      generatorBlockHeight state (Action.UPDATE_CORE_INFO
        { p with generator_block_height := JSField.null }) = JSValue.str "???" ∧
      generatorBlockHeight state (Action.UPDATE_CORE_INFO
        { p with generator_block_height := JSField.absent }) = JSValue.str "???" ∧
      replicationLagClass stateClass (Action.UPDATE_CORE_INFO
        { p with generator_block_height := JSField.null }) = some "red" ∧
      replicationLagClass stateClass (Action.UPDATE_CORE_INFO
        { p with generator_block_height := JSField.absent }) = some "red") ∧
    replicationLag numberToString state (Action.UPDATE_CORE_INFO
        { p with generator_block_height := JSField.val (JSNum.fin g),
                 block_height := JSField.val (JSNum.fin b) }) =
      JSValue.str (toString (g - b)) ∧
    replicationLag numberToString state (Action.UPDATE_CORE_INFO
        { p with generator_block_height := JSField.val (JSNum.fin g),
                 block_height := JSField.null }) =
      JSValue.str (toString g) ∧
    replicationLag numberToString state (Action.UPDATE_CORE_INFO
        { p with generator_block_height := JSField.val (JSNum.fin g),
                 block_height := JSField.absent }) =
      JSValue.str "NaN" := by
  refine ⟨⟨rfl, rfl, rfl, rfl, rfl, rfl⟩, ?_, ?_, ?_⟩
  · show JSValue.str (numberToString (JSNum.sub (JSNum.fin g) (JSNum.fin b)) ++ "") = _
    have hcast : ((g : ℚ) - (b : ℚ)) = ((g - b : Int) : ℚ) := by push_cast; rfl
    simp only [JSNum.sub, hcast, hprint (g - b) hgb, String.append_empty]
  · show JSValue.str (numberToString (JSNum.sub (JSNum.fin g) (JSNum.fin 0)) ++ "") = _
    simp only [JSNum.sub, sub_zero, hprint g hg, String.append_empty]
  · show JSValue.str (numberToString (JSNum.sub (JSNum.fin g) JSNum.nan) ++ "") = _
    simp only [JSNum.sub, hnan, String.append_empty]

/-- C14 (as the code has it), with the heights `100` and `105`: the lag is the string
    `-5`. -/
theorem unknown_generator_height_witness :
    ((100 : Int).natAbs ≤ 2 ^ 53 ∧ (105 : Int).natAbs ≤ 2 ^ 53 ∧
      (100 - 105 : Int).natAbs ≤ 2 ^ 53) ∧
    replicationLag printNumber JSValue.null (Action.UPDATE_CORE_INFO
        { generator_block_height := JSField.val (JSNum.fin (100 : Int)),
          block_height := JSField.val (JSNum.fin (105 : Int)) }) = JSValue.str "-5" :=
  ⟨by decide,
   (unknown_generator_height printNumber (fun n _ => printNumber_int n) rfl JSValue.null none
      {} 100 105 (by decide) (by decide) (by decide)).2.1⟩

/-- C14 fails as stated: with `generator_block_height` `5` and no `block_height` the
    difference `5 - undefined` is not a number and `replicationLag` is the string `"NaN"`,
    not the decimal string of an integer. -/
theorem replicationLag_missing_block_height :
    ({ generator_block_height := JSField.val (JSNum.fin 5) } : Param).block_height =
      JSField.absent ∧
    JSField.toNumber (JSField.val (JSNum.fin 5)) - JSField.toNumber JSField.absent =
      JSNum.nan ∧
    replicationLag printNumber JSValue.null (Action.UPDATE_CORE_INFO
        { generator_block_height := JSField.val (JSNum.fin 5) }) = JSValue.str "NaN" := by
  refine ⟨rfl, rfl, ?_⟩
  show JSValue.str (printNumber (JSNum.sub (JSNum.fin 5) JSNum.nan) ++ "") = _
  simp only [JSNum.sub]
  rfl

/-! ## `requireClientToken` over runs of actions -/

theorem requireClientToken_eq (s : Bool) (e : Action) :
    requireClientToken s e = (s || decide (e = Action.ERROR 401)) := by
  cases e with
  | ERROR status =>
    by_cases h : status = 401 <;> simp [requireClientToken, h]
  | _ => simp [requireClientToken]

/-- C15: `requireClientToken` is sticky: from true it is true after every run of actions,
    each single action included; one action gives true exactly when the flag was true or
    the action is `ERROR` with status `401`, and a run from any start gives true exactly
    when the flag was true or the run contains such an action. -/
theorem requireClientToken_sticky (events : List Action) (s : Bool) (e : Action)
    (token : String) (p : Param) :
    events.foldl requireClientToken true = true ∧
    requireClientToken true e = true ∧
    requireClientToken true (Action.SET_CLIENT_TOKEN token) = true ∧
    requireClientToken true Action.USER_LOG_IN = true ∧
    requireClientToken true Action.USER_LOG_OUT = true ∧
    requireClientToken true (Action.UPDATE_CORE_INFO p) = true ∧
    requireClientToken true Action.CORE_DISCONNECT = true ∧
    requireClientToken s e = (s || decide (e = Action.ERROR 401)) ∧
    events.foldl requireClientToken s =
      (s || events.any (fun a => decide (a = Action.ERROR 401))) := by
  have hfold : ∀ (l : List Action) (b : Bool), l.foldl requireClientToken b =
      (b || l.any (fun a => decide (a = Action.ERROR 401))) := by
    intro l
    induction l with
    | nil => intro b; simp
    | cons a rest ih =>
      intro b
      rw [List.foldl_cons, ih, requireClientToken_eq, List.any_cons, Bool.or_assoc]
  refine ⟨?_, ?_, rfl, rfl, rfl, rfl, rfl, requireClientToken_eq s e, hfold events s⟩
  · rw [hfold]; rfl
  · rw [requireClientToken_eq]; rfl

/-! ## `replicationLagClass` for a known generator height -/

/-- C16: on an `UPDATE_CORE_INFO` with a non-null `generator_block_height`, whatever the
    previous value, `replicationLagClass` is one of green, yellow, red; for finite
    heights with `lag = generator_block_height - block_height` it is green when
    `lag < 5`, yellow when `5 ≤ lag < 10`, red when `lag ≥ 10`, so the lags `4`, `5`, `9`,
    `10` give green, yellow, yellow, red. -/
theorem replicationLagClass_by_lag (state state2 : Option String) (p : Param) (x : JSNum)
    (g b : ℚ) :
    (replicationLagClass state (Action.UPDATE_CORE_INFO
          { p with generator_block_height := JSField.val x }) = some "green" ∨
      replicationLagClass state (Action.UPDATE_CORE_INFO
          { p with generator_block_height := JSField.val x }) = some "yellow" ∨
      replicationLagClass state (Action.UPDATE_CORE_INFO
          { p with generator_block_height := JSField.val x }) = some "red") ∧
    replicationLagClass state (Action.UPDATE_CORE_INFO
        { p with generator_block_height := JSField.val x }) =
      replicationLagClass state2 (Action.UPDATE_CORE_INFO
        { p with generator_block_height := JSField.val x }) ∧
    replicationLagClass state (Action.UPDATE_CORE_INFO
        { p with generator_block_height := JSField.val (JSNum.fin g),
                 block_height := JSField.val (JSNum.fin b) }) =
      (if g - b < 5 then some "green" else if g - b < 10 then some "yellow" else some "red") ∧
    replicationLagClass state (Action.UPDATE_CORE_INFO
        { p with generator_block_height := JSField.val (JSNum.fin (b + 4)),
                 block_height := JSField.val (JSNum.fin b) }) = some "green" ∧
    replicationLagClass state (Action.UPDATE_CORE_INFO
        { p with generator_block_height := JSField.val (JSNum.fin (b + 5)),
                 block_height := JSField.val (JSNum.fin b) }) = some "yellow" ∧
    replicationLagClass state (Action.UPDATE_CORE_INFO
        { p with generator_block_height := JSField.val (JSNum.fin (b + 9)),
                 block_height := JSField.val (JSNum.fin b) }) = some "yellow" ∧
    replicationLagClass state (Action.UPDATE_CORE_INFO
        { p with generator_block_height := JSField.val (JSNum.fin (b + 10)),
                 block_height := JSField.val (JSNum.fin b) }) = some "red" := by
  have hfin : ∀ g1 b1 : ℚ, replicationLagClass state (Action.UPDATE_CORE_INFO
        { p with generator_block_height := JSField.val (JSNum.fin g1),
                 block_height := JSField.val (JSNum.fin b1) }) =
      (if g1 - b1 < 5 then some "green" else if g1 - b1 < 10 then some "yellow"
        else some "red") := by
    intro g1 b1
    show (if (JSNum.sub (JSNum.fin g1) (JSNum.fin b1)).lt (JSNum.fin 5) = true
        then some "green"
      else if (JSNum.sub (JSNum.fin g1) (JSNum.fin b1)).lt (JSNum.fin 10) = true
        then some "yellow"
      else some "red") = _
    simp [JSNum.sub, JSNum.lt]
  refine ⟨?_, rfl, hfin g b, ?_, ?_, ?_, ?_⟩
  · simp only [replicationLagClass, JSField.isNullish, Bool.false_eq_true, if_false]
    split
    · exact Or.inl rfl
    · split
      · exact Or.inr (Or.inl rfl)
      · exact Or.inr (Or.inr rfl)
  · rw [hfin]; norm_num
  · rw [hfin]; norm_num
  · rw [hfin]; norm_num
  · rw [hfin]; norm_num

/-! ## The default-field reducers -/

theorem or_bool_default (b : Bool) :
    (JSValue.bool b).or (JSValue.bool false) = JSValue.bool b := by
  cases b <;> rfl

theorem or_num_default (x : JSNum) :
    (JSValue.num x).or (JSValue.num (JSNum.fin 0)) =
      (if x = JSNum.nan then JSValue.num (JSNum.fin 0) else JSValue.num x) := by
  by_cases h : x = JSNum.nan
  · simp [JSValue.or, JSValue.truthy, h]
  · by_cases h0 : x = JSNum.fin 0
    · simp [JSValue.or, JSValue.truthy, h0]
    · simp [JSValue.or, JSValue.truthy, h, h0]

theorem or_str_default (c : String) (d : JSValue) :
    (JSValue.str c).or d = (if c = "" then d else JSValue.str c) := by
  by_cases h : c = "" <;> simp [JSValue.or, JSValue.truthy, h]

/-- C17 (as the code has it): on an `UPDATE_CORE_INFO`, whatever the previous value, each
    default-field reducer returns `param[key]` when that value is truthy and the
    field-specific default otherwise.  A boolean property gives its own value, a numeric
    property its own value unless it is not-a-number (`0` gives the default `0`), a
    string property its own value unless it is empty, and an empty string, `null` or a
    missing property give the default: `false` for `generatorUrl` and
    `generatorAccessToken`, `0` for `blockchainID`. -/
theorem default_field_reducers (state state2 : JSValue) (p : Param) (b : Bool) (x : JSNum)
    (c : String) :
    configured state (Action.UPDATE_CORE_INFO { p with is_configured := JSField.val b }) =
      JSValue.bool b ∧
    configured state (Action.UPDATE_CORE_INFO { p with is_configured := JSField.null }) =
      JSValue.bool false ∧
    configured state (Action.UPDATE_CORE_INFO { p with is_configured := JSField.absent }) =
      JSValue.bool false ∧
    configured state (Action.UPDATE_CORE_INFO p) = configured state2 (Action.UPDATE_CORE_INFO p) ∧
    production state (Action.UPDATE_CORE_INFO { p with is_production := JSField.val b }) =
      JSValue.bool b ∧
    production state (Action.UPDATE_CORE_INFO { p with is_production := JSField.null }) =
      JSValue.bool false ∧
    production state (Action.UPDATE_CORE_INFO { p with is_production := JSField.absent }) =
      JSValue.bool false ∧
    production state (Action.UPDATE_CORE_INFO p) = production state2 (Action.UPDATE_CORE_INFO p) ∧
    signer state (Action.UPDATE_CORE_INFO { p with is_signer := JSField.val b }) =
      JSValue.bool b ∧
    signer state (Action.UPDATE_CORE_INFO { p with is_signer := JSField.null }) =
      JSValue.bool false ∧
    signer state (Action.UPDATE_CORE_INFO { p with is_signer := JSField.absent }) =
      JSValue.bool false ∧
    signer state (Action.UPDATE_CORE_INFO p) = signer state2 (Action.UPDATE_CORE_INFO p) ∧
    generator state (Action.UPDATE_CORE_INFO { p with is_generator := JSField.val b }) =
      JSValue.bool b ∧
    generator state (Action.UPDATE_CORE_INFO { p with is_generator := JSField.null }) =
      JSValue.bool false ∧
    generator state (Action.UPDATE_CORE_INFO { p with is_generator := JSField.absent }) =
      JSValue.bool false ∧
    generator state (Action.UPDATE_CORE_INFO p) = generator state2 (Action.UPDATE_CORE_INFO p) ∧
    blockHeight state (Action.UPDATE_CORE_INFO { p with block_height := JSField.val x }) =
      (if x = JSNum.nan then JSValue.num (JSNum.fin 0) else JSValue.num x) ∧
    blockHeight state (Action.UPDATE_CORE_INFO { p with block_height := JSField.null }) =
      JSValue.num (JSNum.fin 0) ∧
    blockHeight state (Action.UPDATE_CORE_INFO { p with block_height := JSField.absent }) =
      JSValue.num (JSNum.fin 0) ∧
    blockHeight state (Action.UPDATE_CORE_INFO p) = blockHeight state2 (Action.UPDATE_CORE_INFO p) ∧
    networkRpcVersion state
        (Action.UPDATE_CORE_INFO { p with network_rpc_version := JSField.val x }) =
      (if x = JSNum.nan then JSValue.num (JSNum.fin 0) else JSValue.num x) ∧
    networkRpcVersion state
        (Action.UPDATE_CORE_INFO { p with network_rpc_version := JSField.null }) =
      JSValue.num (JSNum.fin 0) ∧
    networkRpcVersion state
        (Action.UPDATE_CORE_INFO { p with network_rpc_version := JSField.absent }) =
      JSValue.num (JSNum.fin 0) ∧
    networkRpcVersion state (Action.UPDATE_CORE_INFO p) =
      networkRpcVersion state2 (Action.UPDATE_CORE_INFO p) ∧
    generatorUrl state (Action.UPDATE_CORE_INFO { p with generator_url := JSField.val c }) =
      (if c = "" then JSValue.bool false else JSValue.str c) ∧
    generatorUrl state (Action.UPDATE_CORE_INFO { p with generator_url := JSField.null }) =
      JSValue.bool false ∧
    generatorUrl state (Action.UPDATE_CORE_INFO { p with generator_url := JSField.absent }) =
      JSValue.bool false ∧
    generatorUrl state (Action.UPDATE_CORE_INFO p) =
      generatorUrl state2 (Action.UPDATE_CORE_INFO p) ∧
    generatorAccessToken state
        (Action.UPDATE_CORE_INFO { p with generator_access_token := JSField.val c }) =
      (if c = "" then JSValue.bool false else JSValue.str c) ∧
    generatorAccessToken state
        (Action.UPDATE_CORE_INFO { p with generator_access_token := JSField.null }) =
      JSValue.bool false ∧
    generatorAccessToken state
        (Action.UPDATE_CORE_INFO { p with generator_access_token := JSField.absent }) =
      JSValue.bool false ∧
    generatorAccessToken state (Action.UPDATE_CORE_INFO p) =
      generatorAccessToken state2 (Action.UPDATE_CORE_INFO p) ∧
    blockchainID state (Action.UPDATE_CORE_INFO { p with blockchain_id := JSField.val c }) =
      (if c = "" then JSValue.num (JSNum.fin 0) else JSValue.str c) ∧
    blockchainID state (Action.UPDATE_CORE_INFO { p with blockchain_id := JSField.null }) =
      JSValue.num (JSNum.fin 0) ∧
    blockchainID state (Action.UPDATE_CORE_INFO { p with blockchain_id := JSField.absent }) =
      JSValue.num (JSNum.fin 0) ∧
    blockchainID state (Action.UPDATE_CORE_INFO p) =
      blockchainID state2 (Action.UPDATE_CORE_INFO p) :=
  ⟨or_bool_default b, rfl, rfl, rfl, or_bool_default b, rfl, rfl, rfl, or_bool_default b, rfl,
   rfl, rfl, or_bool_default b, rfl, rfl, rfl, or_num_default x, rfl, rfl, rfl,
   or_num_default x, rfl, rfl, rfl, or_str_default c _, rfl, rfl, rfl, or_str_default c _, rfl,
   rfl, rfl, or_str_default c _, rfl, rfl, rfl⟩

/-- C17 fails as stated: the property `generator_url` present with the value `''` gives
    the default `false`, not `''`; likewise `blockchain_id: ''` gives `0`. -/
theorem generatorUrl_empty_string_default :
    generatorUrl JSValue.undefined
        (Action.UPDATE_CORE_INFO { generator_url := JSField.val "" }) = JSValue.bool false ∧
    ({ generator_url := JSField.val "" } : Param).get "generator_url" = JSValue.str "" ∧
    JSValue.bool false ≠ JSValue.str "" ∧
    blockchainID JSValue.undefined
        (Action.UPDATE_CORE_INFO { blockchain_id := JSField.val "" }) =
      JSValue.num (JSNum.fin 0) := by
  refine ⟨rfl, rfl, ?_, rfl⟩
  simp

/-! ## `buildCommit` -/

theorem substring_zero (s : String) (n : Nat) : substring s 0 n = ⟨s.data.take n⟩ := by
  simp [substring]

/-- The value of `buildCommit` on an update whose `build_commit` is the string `c`. -/
theorem buildCommit_update (state : JSValue) (p : Param) (c : String) :
    buildCommit state (Action.UPDATE_CORE_INFO { p with build_commit := JSField.val c }) =
      some (JSValue.str (if c = "?" then "Local development" else ⟨c.data.take 18⟩)) := by
  have hval : coreConfigReducer "build_commit" state (JSValue.str "")
      (Action.UPDATE_CORE_INFO { p with build_commit := JSField.val c }) = JSValue.str c := by
    show (JSValue.str c).or (JSValue.str "") = _
    rw [or_str_default]
    by_cases h : c = "" <;> simp [h]
  unfold buildCommit
  simp only [hval]
  by_cases h1 : c = "?"
  · simp [h1]
  · by_cases h2 : c = ""
    · subst h2
      simp [JSValue.looseNeEmpty]
    · simp [h1, h2, JSValue.looseNeEmpty, substring_zero]

/-- C18: on an `UPDATE_CORE_INFO`, whatever the previous value, `buildCommit` is
    `"Local development"` when `build_commit` is exactly `"?"`, the empty string when it
    is missing, null or empty, and otherwise the first 18 code units of the string, the
    string itself when it has at most 18; the result has at most 18 code units and is a
    prefix of `build_commit` unless that is `"?"`. -/
theorem buildCommit_truncated (state : JSValue) (p : Param) (c : String) :
    buildCommit state (Action.UPDATE_CORE_INFO { p with build_commit := JSField.val "?" }) =
      some (JSValue.str "Local development") ∧
    buildCommit state (Action.UPDATE_CORE_INFO { p with build_commit := JSField.absent }) =
      some (JSValue.str "") ∧
    buildCommit state (Action.UPDATE_CORE_INFO { p with build_commit := JSField.null }) =
      some (JSValue.str "") ∧
    buildCommit state (Action.UPDATE_CORE_INFO { p with build_commit := JSField.val "" }) =
      some (JSValue.str "") ∧
    buildCommit state (Action.UPDATE_CORE_INFO { p with build_commit := JSField.val c }) =
      some (JSValue.str (if c = "?" then "Local development" else ⟨c.data.take 18⟩)) ∧
    (c ≠ "?" → c.length ≤ 18 →
      buildCommit state (Action.UPDATE_CORE_INFO { p with build_commit := JSField.val c }) =
        some (JSValue.str c)) ∧
    (∃ r : String,
      buildCommit state (Action.UPDATE_CORE_INFO { p with build_commit := JSField.val c }) =
        some (JSValue.str r) ∧
      r.length ≤ 18 ∧ (c ≠ "?" → r.data <+: c.data)) := by
  refine ⟨buildCommit_update state p "?", ?_, ?_, buildCommit_update state p "",
    buildCommit_update state p c, ?_, ?_⟩
  · simp [buildCommit, coreConfigReducer, Param.get, JSField.toValue, JSValue.or,
      JSValue.truthy, JSValue.looseNeEmpty]
  · simp [buildCommit, coreConfigReducer, Param.get, JSField.toValue, JSValue.or,
      JSValue.truthy, JSValue.looseNeEmpty]
  · intro h1 h2
    rw [buildCommit_update, if_neg h1]
    have : c.data.take 18 = c.data := List.take_of_length_le h2
    rw [this]
  · refine ⟨_, buildCommit_update state p c, ?_, ?_⟩
    · by_cases h1 : c = "?"
      · rw [if_pos h1]
        decide
      · rw [if_neg h1]
        exact List.length_take_le 18 c.data
    · intro h1
      rw [if_neg h1]
      exact List.take_prefix 18 c.data

/-- C18, on a commit hash of 40 characters and on a short one. -/
theorem buildCommit_truncated_witness :
    buildCommit JSValue.undefined (Action.UPDATE_CORE_INFO
        { build_commit := JSField.val "0123456789abcdef0123456789abcdef01234567" }) =
      some (JSValue.str "0123456789abcdef01") ∧
    ("abc123" ≠ "?" ∧ "abc123".length ≤ 18) ∧
    buildCommit JSValue.undefined (Action.UPDATE_CORE_INFO
        { build_commit := JSField.val "abc123" }) = some (JSValue.str "abc123") :=
  ⟨(buildCommit_truncated JSValue.undefined {}
      "0123456789abcdef0123456789abcdef01234567").2.2.2.2.1,
   by decide,
   (buildCommit_truncated JSValue.undefined {} "abc123").2.2.2.2.2.1 (by decide) (by decide)⟩

/-! ## `syncEstimates`: which estimator is sampled -/

/-- C19: on an `UPDATE_CORE_INFO` the result does not depend on the previous estimate
    object.  With `snapshot.in_progress` true, `snapshot.downloaded` is recorded in the
    snapshot estimator, the replica-lag estimator is left as it was and the estimate has
    no `replicaLag` entry; otherwise the lag is recorded in the replica-lag estimator, the
    snapshot estimator is left as it was and the estimate has no `snapshot` entry.
    Recording pushes the one new sample and drops the oldest on overflow. -/
theorem syncEstimates_samples_one_estimator (init : Option SyncSamplers)
    (st st2 : Estimates) (p : Param) (tPush tAvg : Int) :
    syncEstimates init st (Action.UPDATE_CORE_INFO p) tPush tAvg =
      syncEstimates init st2 (Action.UPDATE_CORE_INFO p) tPush tAvg ∧
    (∀ sn : Snapshot, p.snapshot = JSField.val sn → sn.in_progress.truthy = true →
      (syncEstimates init st (Action.UPDATE_CORE_INFO p) tPush tAvg).2 =
        some
          { snapshot := (init.getD resetSyncEstimators).snapshot.record sn.downloaded tPush
            replicaLag := (init.getD resetSyncEstimators).replicaLag } ∧
      (syncEstimates init st (Action.UPDATE_CORE_INFO p) tPush tAvg).1.replicaLag = none) ∧
    (snapshotInProgress p = false →
      (syncEstimates init st (Action.UPDATE_CORE_INFO p) tPush tAvg).2 =
        some
          { snapshot := (init.getD resetSyncEstimators).snapshot
            replicaLag := (init.getD resetSyncEstimators).replicaLag.record
              (JSField.val (p.generator_block_height.toNumber - p.block_height.toNumber))
              tPush } ∧
      (syncEstimates init st (Action.UPDATE_CORE_INFO p) tPush tAvg).1.snapshot = none) ∧
    (∀ (d : DeltaSampler) (v : JSField JSNum),
      ((d.record v tPush).samples = d.samples ++ [Sample.mk v tPush] ∨
        (d.record v tPush).samples = (d.samples ++ [Sample.mk v tPush]).tail) ∧
      ((d.samples.length : Int) < d.maxSamples →
        (d.record v tPush).samples = d.samples ++ [Sample.mk v tPush]) ∧
      (1 ≤ d.maxSamples → (d.samples.length : Int) = d.maxSamples →
        (d.record v tPush).samples = d.samples.tail ++ [Sample.mk v tPush])) := by
  refine ⟨?_, ?_, ?_, ?_⟩
  · cases init <;> rfl
  · intro sn hp hin
    rw [syncEstimates_update_snapshot init st p sn tPush tAvg hp hin]
    constructor
    · rfl
    · simp only [syncSnapshot]
      split <;> rfl
  · intro hno
    rw [syncEstimates_update_lag init st p tPush tAvg hno]
    constructor
    · rfl
    · simp only [syncReplicaLag]
      split
      · split <;> rfl
      · rfl
  · intro d v
    refine ⟨?_, ?_, ?_⟩
    · simp only [DeltaSampler.record]
      split
      · exact Or.inr rfl
      · exact Or.inl rfl
    · intro h
      have h1 : ¬ ((d.samples ++ [Sample.mk v tPush]).length : Int) > d.maxSamples := by
        simp only [List.length_append, List.length_singleton]
        omega
      simp only [DeltaSampler.record, h1, if_false]
    · intro h1 h2
      have h3 : ((d.samples ++ [Sample.mk v tPush]).length : Int) > d.maxSamples := by
        simp only [List.length_append, List.length_singleton]
        omega
      have hne : d.samples ≠ [] := by
        intro h0
        rw [h0] at h2
        simp at h2
        omega
      obtain ⟨a, as, has⟩ := List.exists_cons_of_ne_nil hne
      simp only [DeltaSampler.record, h3, if_true]
      rw [has]
      rfl

/-- C19, on the first transfer update `{in_progress: true, downloaded: 100, size: 1000}`
    at time `0` with the replica-lag estimator holding `{10, 0}`: the snapshot estimator
    gets the one sample, the replica-lag estimator keeps its buffer. -/
theorem syncEstimates_samples_one_estimator_witness :
    ((transferInfo 100 1000).snapshot = JSField.val (transfer 100 1000) ∧
      (transfer 100 1000).in_progress.truthy = true) ∧
    (syncEstimates (some (lagSamplers [⟨JSField.val (JSNum.fin 10), 0⟩])) {}
        (Action.UPDATE_CORE_INFO (transferInfo 100 1000)) 0 0).2 =
      some
        { snapshot := ⟨10 * 1000, 60, [⟨JSField.val (JSNum.fin 100), 0⟩]⟩
          replicaLag := ⟨10 * 1000, 60, [⟨JSField.val (JSNum.fin 10), 0⟩]⟩ } :=
  ⟨⟨rfl, rfl⟩,
   ((syncEstimates_samples_one_estimator
      (some (lagSamplers [⟨JSField.val (JSNum.fin 10), 0⟩])) {} {}
      (transferInfo 100 1000) 0 0).2.1 (transfer 100 1000) rfl rfl).1.trans (by decide)⟩

/-! ## `humanizeDuration` on whole numbers of seconds -/

theorem floor_nat_div (s u : ℕ) : (⌊(s : ℚ) / (u : ℚ)⌋ : Int) = ((s / u : ℕ) : Int) := by
  have h := Rat.floor_intCast_div_natCast (s : Int) u
  rw [Int.cast_natCast] at h
  rw [h]
  norm_cast

theorem round_int (n : Int) : (⌊(n : ℚ) + 1 / 2⌋ : Int) = n := by
  rw [Int.floor_eq_iff]
  constructor <;> linarith

theorem div_nat (s u : ℕ) (hu : 0 < u) :
    (JSNum.fin (s : ℚ) / JSNum.fin (u : ℚ)).floor = JSNum.fin ((s / u : ℕ) : ℚ) := by
  have hu0 : (u : ℚ) ≠ 0 := by positivity
  rw [div_fin _ _ hu0]
  simp only [JSNum.floor, floor_nat_div]
  norm_cast

theorem rem_nat (s u : ℕ) (hu : 0 < u) :
    (JSNum.fin (s : ℚ) % JSNum.fin (u : ℚ)).round = JSNum.fin ((s % u : ℕ) : ℚ) := by
  have hu0 : (u : ℚ) ≠ 0 := by positivity
  have hnn : (0 : ℚ) ≤ (s : ℚ) / (u : ℚ) := by positivity
  show (JSNum.rem (JSNum.fin (s : ℚ)) (JSNum.fin (u : ℚ))).round = _
  simp only [JSNum.rem, if_neg hu0, if_pos hnn, floor_nat_div]
  have hmod : (s : ℚ) - (u : ℚ) * (((s / u : ℕ) : Int) : ℚ) = (((s % u : ℕ) : Int) : ℚ) := by
    have h := Nat.mod_add_div s u
    have h2 : ((s % u : ℕ) : ℚ) + (u : ℚ) * ((s / u : ℕ) : ℚ) = (s : ℚ) := by exact_mod_cast h
    simp only [Int.cast_natCast]
    linarith
  rw [hmod]
  simp only [JSNum.round, round_int]
  norm_cast

/-- The tail of `humanizeDuration` on `s` seconds and a unit of `u` seconds. -/
theorem humanizeParts_nat (numberToString : JSNum → String) (s u : ℕ) (hu : 0 < u)
    (bigUnit littleUnit : String) :
    humanizeParts numberToString (JSNum.fin (s : ℚ) / JSNum.fin (u : ℚ))
        (JSNum.fin (s : ℚ) % JSNum.fin (u : ℚ)) bigUnit littleUnit =
      (if 9 < s / u then numberToString (JSNum.fin ((s / u : ℕ) : ℚ)) ++ bigUnit
        else numberToString (JSNum.fin ((s / u : ℕ) : ℚ)) ++ bigUnit ++ " " ++
          numberToString (JSNum.fin ((s % u : ℕ) : ℚ)) ++ littleUnit) := by
  unfold humanizeParts
  simp only [div_nat s u hu, rem_nat s u hu]
  have hgt : (JSNum.fin ((s / u : ℕ) : ℚ)).gt (JSNum.fin 9) = decide (9 < s / u) := by
    simp only [JSNum.gt, JSNum.lt]
    congr 1
    apply propext
    constructor
    · intro h
      exact_mod_cast h
    · intro h
      exact_mod_cast h
  rw [hgt]
  by_cases h : 9 < s / u <;> simp [h]

/-- What `humanizeDuration` renders for a whole number `s` of seconds. -/
theorem humanizeDuration_nat (numberToString : JSNum → String) (s : ℕ) :
    humanizeDuration numberToString (JSNum.fin (s : ℚ)) =
      (if 86400 < s then
        (if 9 < s / 86400 then numberToString (JSNum.fin ((s / 86400 : ℕ) : ℚ)) ++ "d"
          else numberToString (JSNum.fin ((s / 86400 : ℕ) : ℚ)) ++ "d" ++ " " ++
            numberToString (JSNum.fin ((s % 86400 : ℕ) : ℚ)) ++ "h")
      else if 3600 < s then
        (if 9 < s / 3600 then numberToString (JSNum.fin ((s / 3600 : ℕ) : ℚ)) ++ "h"
          else numberToString (JSNum.fin ((s / 3600 : ℕ) : ℚ)) ++ "h" ++ " " ++
            numberToString (JSNum.fin ((s % 3600 : ℕ) : ℚ)) ++ "m")
      else if 60 < s then
        (if 9 < s / 60 then numberToString (JSNum.fin ((s / 60 : ℕ) : ℚ)) ++ "m"
          else numberToString (JSNum.fin ((s / 60 : ℕ) : ℚ)) ++ "m" ++ " " ++
            numberToString (JSNum.fin ((s % 60 : ℕ) : ℚ)) ++ "s")
      else numberToString (JSNum.fin (s : ℚ)) ++ "s") := by
  have hgt : ∀ u : ℕ, (JSNum.fin (s : ℚ)).gt (JSNum.fin (u : ℚ)) = decide (u < s) := by
    intro u
    simp only [JSNum.gt, JSNum.lt]
    congr 1
    apply propext
    constructor
    · intro h
      exact_mod_cast h
    · intro h
      exact_mod_cast h
  have e1 : (24 * 60 * 60 : ℚ) = ((86400 : ℕ) : ℚ) := by norm_num
  have e2 : (60 * 60 : ℚ) = ((3600 : ℕ) : ℚ) := by norm_num
  have e3 : (60 : ℚ) = ((60 : ℕ) : ℚ) := by norm_num
  have hround : (JSNum.fin (s : ℚ)).round = JSNum.fin (s : ℚ) := by
    have := round_int (s : Int)
    simp only [JSNum.round]
    rw [Int.cast_natCast] at this
    rw [this]
    norm_cast
  unfold humanizeDuration
  rw [e1, e2, e3, hgt, hgt, hgt, humanizeParts_nat _ s 86400 (by norm_num),
    humanizeParts_nat _ s 3600 (by norm_num), humanizeParts_nat _ s 60 (by norm_num), hround]
  simp only [decide_eq_true_eq]

/-- C20 fails for the `h`/`m` and `d`/`h` renderings: the remainder is left in seconds.
    `7260` seconds (2 h 1 min) render as `2h 60m` and `90000` seconds (1 d 1 h) as
    `1d 3600h`; the `m`/`s` rendering, the plain seconds and the single-unit rendering
    are as claimed (`125` gives `2m 5s`, `45` gives `45s`, `36000` gives `10h`). -/
theorem humanizeDuration_remainder_in_seconds (numberToString : JSNum → String) :
    humanizeDuration numberToString (JSNum.fin 7260) =
      numberToString (JSNum.fin 2) ++ "h" ++ " " ++ numberToString (JSNum.fin 60) ++ "m" ∧
    humanizeDuration numberToString (JSNum.fin 90000) =
      numberToString (JSNum.fin 1) ++ "d" ++ " " ++ numberToString (JSNum.fin 3600) ++ "h" ∧
    humanizeDuration printNumber (JSNum.fin 7260) = "2h 60m" ∧
    humanizeDuration printNumber (JSNum.fin 90000) = "1d 3600h" ∧
    humanizeDuration printNumber (JSNum.fin 125) = "2m 5s" ∧
    humanizeDuration printNumber (JSNum.fin 45) = "45s" ∧
    humanizeDuration printNumber (JSNum.fin 36000) = "10h" := by
  have h1 : humanizeDuration numberToString (JSNum.fin 7260) =
      numberToString (JSNum.fin 2) ++ "h" ++ " " ++ numberToString (JSNum.fin 60) ++ "m" := by
    simpa using humanizeDuration_nat numberToString 7260
  have h2 : humanizeDuration numberToString (JSNum.fin 90000) =
      numberToString (JSNum.fin 1) ++ "d" ++ " " ++ numberToString (JSNum.fin 3600) ++ "h" := by
    simpa using humanizeDuration_nat numberToString 90000
  have p : ∀ n : Int, printNumber (JSNum.fin (n : ℚ)) = toString n := printNumber_int
  have p1 : printNumber (JSNum.fin 1) = "1" := by simpa using p 1
  have p2 : printNumber (JSNum.fin 2) = "2" := by simpa using p 2
  have p5 : printNumber (JSNum.fin 5) = "5" := by simpa using p 5
  have p10 : printNumber (JSNum.fin 10) = "10" := by simpa using p 10
  have p45 : printNumber (JSNum.fin 45) = "45" := by simpa using p 45
  have p60 : printNumber (JSNum.fin 60) = "60" := by simpa using p 60
  have p3600 : printNumber (JSNum.fin 3600) = "3600" := by simpa using p 3600
  refine ⟨h1, h2, ?_, ?_, ?_, ?_, ?_⟩
  · have := humanizeDuration_nat printNumber 7260
    simp only [Nat.cast_ofNat] at this
    rw [this]
    norm_num [p2, p60]
    decide
  · have := humanizeDuration_nat printNumber 90000
    simp only [Nat.cast_ofNat] at this
    rw [this]
    norm_num [p1, p3600]
    decide
  · have := humanizeDuration_nat printNumber 125
    simp only [Nat.cast_ofNat] at this
    rw [this]
    norm_num [p2, p5]
    decide
  · have := humanizeDuration_nat printNumber 45
    simp only [Nat.cast_ofNat] at this
    rw [this]
    norm_num [p45]
    decide
  · have := humanizeDuration_nat printNumber 36000
    simp only [Nat.cast_ofNat] at this
    rw [this]
    norm_num [p10]
    decide

/-! ## Actions other than `UPDATE_CORE_INFO` -/

theorem coreConfigReducer_other (key : String) (s d : JSValue) (e : Action)
    (h : e.isUpdate = false) : coreConfigReducer key s d e = s.or d := by
  cases e <;> first | rfl | simp [Action.isUpdate] at h

theorem or_or (x d : JSValue) : (x.or d).or d = x.or d := by
  unfold JSValue.or
  by_cases hx : x.truthy = true
  · simp [hx]
  · by_cases hd : d.truthy = true <;> simp [hx, hd]

/-- A value set by `coreConfigReducer` on an update survives the other actions. -/
theorem coreConfigReducer_stable (key : String) (s0 d : JSValue) (p : Param) (e : Action)
    (h : e.isUpdate = false) :
    coreConfigReducer key (coreConfigReducer key s0 d (Action.UPDATE_CORE_INFO p)) d e =
      coreConfigReducer key s0 d (Action.UPDATE_CORE_INFO p) := by
  rw [coreConfigReducer_other key _ d e h]
  exact or_or _ d

theorem generatorBlockHeight_stable (s0 : JSValue) (p : Param) (e : Action)
    (h : e.isUpdate = false) :
    generatorBlockHeight (generatorBlockHeight s0 (Action.UPDATE_CORE_INFO p)) e =
      generatorBlockHeight s0 (Action.UPDATE_CORE_INFO p) := by
  have hother : ∀ s : JSValue, generatorBlockHeight s e =
      coreConfigReducer "generator_block_height" s (JSValue.num (JSNum.fin 0)) e := by
    intro s
    cases e <;> first | rfl | simp [Action.isUpdate] at h
  rw [hother]
  cases hn : p.generator_block_height.isNullish
  · have hu : generatorBlockHeight s0 (Action.UPDATE_CORE_INFO p) =
        coreConfigReducer "generator_block_height" s0 (JSValue.num (JSNum.fin 0))
          (Action.UPDATE_CORE_INFO p) := by
      simp [generatorBlockHeight, hn]
    rw [hu]
    exact coreConfigReducer_stable _ s0 _ p e h
  · have hu : generatorBlockHeight s0 (Action.UPDATE_CORE_INFO p) = JSValue.str "???" := by
      simp [generatorBlockHeight, hn]
    rw [hu, coreConfigReducer_other _ _ _ e h]
    rfl

theorem or_str_empty (w : String) : (JSValue.str w).or (JSValue.str "") = JSValue.str w := by
  rw [or_str_default]
  by_cases h : w = "" <;> simp [h]

theorem configuredAt_update (momentFormat : JSValue → String) (s0 : JSValue) (p : Param) :
    ∃ w : String, configuredAt momentFormat s0 (Action.UPDATE_CORE_INFO p) = JSValue.str w := by
  have hv : ∃ c : String, coreConfigReducer "configured_at" s0 (JSValue.str "")
      (Action.UPDATE_CORE_INFO p) = JSValue.str c := by
    have hget : p.get "configured_at" = p.configured_at.toValue JSValue.str := rfl
    simp only [coreConfigReducer, hget]
    cases p.configured_at with
    | absent => exact ⟨"", rfl⟩
    | null => exact ⟨"", rfl⟩
    | val c => exact ⟨c, or_str_empty c⟩
  obtain ⟨c, hc⟩ := hv
  simp only [configuredAt, hc]
  split
  · exact ⟨_, rfl⟩
  · exact ⟨_, rfl⟩

theorem configuredAt_stable (momentFormat : JSValue → String) (s0 : JSValue) (p : Param)
    (e : Action) (h : e.isUpdate = false) :
    configuredAt momentFormat (configuredAt momentFormat s0 (Action.UPDATE_CORE_INFO p)) e =
      configuredAt momentFormat s0 (Action.UPDATE_CORE_INFO p) := by
  obtain ⟨w, hw⟩ := configuredAt_update momentFormat s0 p
  rw [hw]
  have hother : ∀ s : JSValue, configuredAt momentFormat s e =
      coreConfigReducer "configured_at" s (JSValue.str "") e := by
    intro s
    cases e <;> first | rfl | simp [Action.isUpdate] at h
  rw [hother, coreConfigReducer_other _ _ _ e h]
  exact or_str_empty w

/-- The value of `buildCommit` on any update. -/
theorem buildCommit_update_eq (state : JSValue) (p : Param) :
    buildCommit state (Action.UPDATE_CORE_INFO p) =
      some (JSValue.str (commitText p.build_commit)) := by
  obtain ⟨a1, a2, bc, a4, a5, a6, a7, a8, a9, a10, a11, a12, a13, a14⟩ := p
  cases bc with
  | absent =>
    simp [buildCommit, coreConfigReducer, Param.get, JSField.toValue, JSValue.or,
      JSValue.truthy, JSValue.looseNeEmpty, commitText]
  | null =>
    simp [buildCommit, coreConfigReducer, Param.get, JSField.toValue, JSValue.or,
      JSValue.truthy, JSValue.looseNeEmpty, commitText]
  | val c =>
    exact buildCommit_update state ⟨a1, a2, JSField.absent, a4, a5, a6, a7, a8, a9, a10, a11,
      a12, a13, a14⟩ c

theorem take_ne_question (l : List Char) (h : l ≠ ['?']) : l.take 18 ≠ ['?'] := by
  intro ht
  apply h
  have hlen : (l.take 18).length = 1 := by rw [ht]; rfl
  rw [List.length_take] at hlen
  have hl : l.length ≤ 18 := by omega
  rw [List.take_of_length_le hl] at ht
  exact ht

theorem commitText_fixed (b : JSField String) :
    commitText b ≠ "?" ∧ (commitText b).data.take 18 = (commitText b).data := by
  cases b with
  | absent => exact ⟨by decide, rfl⟩
  | null => exact ⟨by decide, rfl⟩
  | val c =>
    by_cases hc : c = "?"
    · simp only [commitText, if_pos hc]
      exact ⟨by decide, by decide⟩
    · simp only [commitText, if_neg hc]
      constructor
      · intro h
        have h1 : c.data.take 18 = ['?'] := congrArg String.data h
        have h2 : c.data ≠ ['?'] := by
          intro h3
          apply hc
          have : c = ⟨c.data⟩ := rfl
          rw [this, h3]
        exact take_ne_question c.data h2 h1
      · show (c.data.take 18).take 18 = c.data.take 18
        rw [List.take_take]
        simp

theorem buildCommit_stable (s0 : JSValue) (p : Param) (e : Action)
    (h : e.isUpdate = false) :
    (buildCommit s0 (Action.UPDATE_CORE_INFO p)).bind (fun v => buildCommit v e) =
      buildCommit s0 (Action.UPDATE_CORE_INFO p) := by
  rw [buildCommit_update_eq]
  obtain ⟨hq, ht⟩ := commitText_fixed p.build_commit
  generalize commitText p.build_commit = w at hq ht
  simp only [Option.some_bind]
  have hval : coreConfigReducer "build_commit" (JSValue.str w) (JSValue.str "") e =
      JSValue.str w := by
    rw [coreConfigReducer_other _ _ _ e h]
    exact or_str_empty w
  unfold buildCommit
  simp only [hval]
  have hne : JSValue.str w ≠ JSValue.str "?" := fun h1 => hq (JSValue.str.inj h1)
  rw [if_neg hne]
  by_cases hw : w = ""
  · subst hw
    simp [JSValue.looseNeEmpty]
  · have hs : substring w 0 18 = w := by
      rw [substring_zero, ht]
    simp [JSValue.looseNeEmpty, hw, hs]

/-! ## `buildDate` and the other derived fields under later actions -/

theorem buildDate_update (momentFormatX : JSValue → String) (s0 : JSValue) (p : Param)
    (c : String) :
    buildDate momentFormatX s0
        (Action.UPDATE_CORE_INFO { p with build_date := JSField.val c }) =
      (if c = "" then JSValue.str "" else JSValue.str (momentFormatX (JSValue.str c))) := by
  have hval : coreConfigReducer "build_date" s0 (JSValue.str "")
      (Action.UPDATE_CORE_INFO { p with build_date := JSField.val c }) = JSValue.str c :=
    or_str_empty c
  simp only [buildDate, hval]
  by_cases h : c = "" <;> simp [h]

theorem buildDate_other (momentFormatX : JSValue → String) (w : String) (e : Action)
    (he : e.isUpdate = false) :
    buildDate momentFormatX (JSValue.str w) e =
      (if w = "" then JSValue.str "" else JSValue.str (momentFormatX (JSValue.str w))) := by
  have hval : coreConfigReducer "build_date" (JSValue.str w) (JSValue.str "") e =
      JSValue.str w := by
    rw [coreConfigReducer_other _ _ _ e he]
    exact or_str_empty w
  simp only [buildDate, hval]
  by_cases h : w = "" <;> simp [h]

/-- C11 holds for every param-derived field reducer except `buildDate`: after an
    `UPDATE_CORE_INFO`, an action `e` of another type leaves the value of the seventeen
    reducers listed first as it was.  `buildDate` formats on every action: after an update
    with `build_date = c` its value is the formatted `c`, and the next action formats that
    text again, so the value stays the same exactly when `c` is empty, formats to the
    empty string, or formats to a text that the formatter maps to itself. -/
theorem param_fields_after_other_action (momentFormat momentFormatX : JSValue → String)
    (numberToString : JSNum → String) (testNetUrl : String) (s0 : JSValue)
    (sClass : Option String) (sNet : Bool) (sSnap : Option Snapshot) (p : Param)
    (c : String) (e : Action) (he : e.isUpdate = false) :
    configured (configured s0 (Action.UPDATE_CORE_INFO p)) e =
      configured s0 (Action.UPDATE_CORE_INFO p) ∧
    configuredAt momentFormat (configuredAt momentFormat s0 (Action.UPDATE_CORE_INFO p)) e =
      configuredAt momentFormat s0 (Action.UPDATE_CORE_INFO p) ∧
    (buildCommit s0 (Action.UPDATE_CORE_INFO p)).bind (fun v => buildCommit v e) =
      buildCommit s0 (Action.UPDATE_CORE_INFO p) ∧
    production (production s0 (Action.UPDATE_CORE_INFO p)) e =
      production s0 (Action.UPDATE_CORE_INFO p) ∧
    blockHeight (blockHeight s0 (Action.UPDATE_CORE_INFO p)) e =
      blockHeight s0 (Action.UPDATE_CORE_INFO p) ∧
    generatorBlockHeight (generatorBlockHeight s0 (Action.UPDATE_CORE_INFO p)) e =
      generatorBlockHeight s0 (Action.UPDATE_CORE_INFO p) ∧
    signer (signer s0 (Action.UPDATE_CORE_INFO p)) e =
      signer s0 (Action.UPDATE_CORE_INFO p) ∧
    generator (generator s0 (Action.UPDATE_CORE_INFO p)) e =
      generator s0 (Action.UPDATE_CORE_INFO p) ∧
    generatorUrl (generatorUrl s0 (Action.UPDATE_CORE_INFO p)) e =
      generatorUrl s0 (Action.UPDATE_CORE_INFO p) ∧
    generatorAccessToken (generatorAccessToken s0 (Action.UPDATE_CORE_INFO p)) e =
      generatorAccessToken s0 (Action.UPDATE_CORE_INFO p) ∧
    blockchainID (blockchainID s0 (Action.UPDATE_CORE_INFO p)) e =
      blockchainID s0 (Action.UPDATE_CORE_INFO p) ∧
    networkRpcVersion (networkRpcVersion s0 (Action.UPDATE_CORE_INFO p)) e =
      networkRpcVersion s0 (Action.UPDATE_CORE_INFO p) ∧
    coreType (coreType s0 (Action.UPDATE_CORE_INFO p)) e =
      coreType s0 (Action.UPDATE_CORE_INFO p) ∧
    replicationLag numberToString
        (replicationLag numberToString s0 (Action.UPDATE_CORE_INFO p)) e =
      replicationLag numberToString s0 (Action.UPDATE_CORE_INFO p) ∧
    replicationLagClass (replicationLagClass sClass (Action.UPDATE_CORE_INFO p)) e =
      replicationLagClass sClass (Action.UPDATE_CORE_INFO p) ∧
    onTestNet testNetUrl (onTestNet testNetUrl sNet (Action.UPDATE_CORE_INFO p)) e =
      onTestNet testNetUrl sNet (Action.UPDATE_CORE_INFO p) ∧
    snapshot (snapshot sSnap (Action.UPDATE_CORE_INFO p)) e =
      snapshot sSnap (Action.UPDATE_CORE_INFO p) ∧
    buildDate momentFormatX s0
        (Action.UPDATE_CORE_INFO { p with build_date := JSField.val c }) =
      (if c = "" then JSValue.str "" else JSValue.str (momentFormatX (JSValue.str c))) ∧
    buildDate momentFormatX
        (buildDate momentFormatX s0
          (Action.UPDATE_CORE_INFO { p with build_date := JSField.val c })) e =
      (if c = "" then JSValue.str ""
        else if momentFormatX (JSValue.str c) = "" then JSValue.str ""
        else JSValue.str (momentFormatX (JSValue.str (momentFormatX (JSValue.str c))))) ∧
    (buildDate momentFormatX
        (buildDate momentFormatX s0
          (Action.UPDATE_CORE_INFO { p with build_date := JSField.val c })) e =
      buildDate momentFormatX s0
        (Action.UPDATE_CORE_INFO { p with build_date := JSField.val c }) ↔
      (c = "" ∨ momentFormatX (JSValue.str c) = "" ∨
        momentFormatX (JSValue.str (momentFormatX (JSValue.str c))) =
          momentFormatX (JSValue.str c))) := by
  have hother : ∀ {σ : Type} (r : σ → Action → σ),
      (∀ (s1 : σ) (a : Action), a.isUpdate = false → r s1 a = s1) → ∀ s : σ, r s e = s :=
    fun r h s => h s e he
  have htwice : buildDate momentFormatX
        (buildDate momentFormatX s0
          (Action.UPDATE_CORE_INFO { p with build_date := JSField.val c })) e =
      (if c = "" then JSValue.str ""
        else if momentFormatX (JSValue.str c) = "" then JSValue.str ""
        else JSValue.str (momentFormatX (JSValue.str (momentFormatX (JSValue.str c))))) := by
    rw [buildDate_update]
    by_cases h : c = ""
    · simp only [if_pos h]
      rw [buildDate_other _ _ e he]
      simp
    · simp only [if_neg h]
      rw [buildDate_other _ _ e he]
  refine ⟨coreConfigReducer_stable _ s0 _ p e he,
    configuredAt_stable momentFormat s0 p e he,
    buildCommit_stable s0 p e he,
    coreConfigReducer_stable _ s0 _ p e he,
    coreConfigReducer_stable _ s0 _ p e he,
    generatorBlockHeight_stable s0 p e he,
    coreConfigReducer_stable _ s0 _ p e he,
    coreConfigReducer_stable _ s0 _ p e he,
    coreConfigReducer_stable _ s0 _ p e he,
    coreConfigReducer_stable _ s0 _ p e he,
    coreConfigReducer_stable _ s0 _ p e he,
    coreConfigReducer_stable _ s0 _ p e he,
    hother coreType ?_ _, hother (replicationLag numberToString) ?_ _,
    hother replicationLagClass ?_ _, hother (onTestNet testNetUrl) ?_ _,
    hother snapshot ?_ _, buildDate_update momentFormatX s0 p c, htwice, ?_⟩
  · intro s1 a ha
    cases a <;> first | rfl | simp [Action.isUpdate] at ha
  · intro s1 a ha
    cases a <;> first | rfl | simp [Action.isUpdate] at ha
  · intro s1 a ha
    cases a <;> first | rfl | simp [Action.isUpdate] at ha
  · intro s1 a ha
    cases a <;> first | rfl | simp [Action.isUpdate] at ha
  · intro s1 a ha
    cases a <;> first | rfl | simp [Action.isUpdate] at ha
  · rw [htwice, buildDate_update]
    by_cases h1 : c = ""
    · simp [h1]
    · by_cases h2 : momentFormatX (JSValue.str c) = ""
      · simp [h1, h2]
      · simp [h1, h2]

/-- C11, on the action `USER_LOG_IN` after an update with `build_date = "1500000000"`, with
    stand-in formatters that put brackets around a string: `buildDate` holds the text
    bracketed twice. -/
theorem param_fields_after_other_action_witness :
    Action.USER_LOG_IN.isUpdate = false ∧
    buildDate
        (fun v => match v with
          | JSValue.str x => "[" ++ x ++ "]"
          | _ => "")
        (buildDate
          (fun v => match v with
            | JSValue.str x => "[" ++ x ++ "]"
            | _ => "")
          JSValue.undefined
          (Action.UPDATE_CORE_INFO { build_date := JSField.val "1500000000" }))
        Action.USER_LOG_IN = JSValue.str "[[1500000000]]" := by
  refine ⟨rfl, ?_⟩
  rw [(param_fields_after_other_action
      (fun v => match v with
        | JSValue.str x => "[" ++ x ++ "]"
        | _ => "")
      (fun v => match v with
        | JSValue.str x => "[" ++ x ++ "]"
        | _ => "")
      printNumber "testnet" JSValue.undefined none false none {} "1500000000"
      Action.USER_LOG_IN rfl).2.2.2.2.2.2.2.2.2.2.2.2.2.2.2.2.2.2.1]
  decide

/-! ## `preprocessTransaction` -/

/-- One pass of the loop body on an action whose reference data parses. -/
theorem preprocessAction_spec {J : Type} (parse : JSField String → Option J)
    (generate : Bool) (a : TxAction (JSField String)) (r : J)
    (hr : parse a.reference_data = some r) :
    ∃ b : TxAction J,
      preprocessAction parse generate (jsonCopyAction a) = some b ∧
      b.type ≠ JSField.val "retire_asset" ∧
      (a.type = JSField.val "retire_asset" →
        b.type = JSField.val "control_program" ∧ b.control_program = JSField.val "6a") ∧
      (a.type ≠ JSField.val "retire_asset" →
        b.type = a.type ∧ b.control_program = a.control_program) ∧
      (generate = true →
        b.ttl = JSField.val "1h" ∧ b.reservation_ttl = JSField.val "1h") ∧
      (generate = false → b.ttl = a.ttl ∧ b.reservation_ttl = a.reservation_ttl) ∧
      b.reference_data = r := by
  cases generate <;> by_cases ht : a.type = JSField.val "retire_asset" <;>
    simp [preprocessAction, jsonCopyAction, ht, hr]

/-- The loop over the copied actions succeeds when every reference data parses, and
    relates the actions pairwise, in order, by whatever the loop body guarantees. -/
theorem preprocessActions_forall₂ {J : Type} (parse : JSField String → Option J)
    (generate : Bool) (rel : TxAction (JSField String) → TxAction J → Prop)
    (hrel : ∀ (a : TxAction (JSField String)) (r : J), parse a.reference_data = some r →
      ∃ b : TxAction J, preprocessAction parse generate (jsonCopyAction a) = some b ∧ rel a b)
    (acts : List (TxAction (JSField String))) :
    ∀ i : Nat, (∀ a ∈ acts, (parse a.reference_data).isSome = true) →
      ∃ built : List (TxAction J),
        preprocessActions parse generate i (acts.map jsonCopyAction) = Except.ok built ∧
        List.Forall₂ rel acts built := by
  induction acts with
  | nil =>
    intro i _
    exact ⟨[], rfl, List.Forall₂.nil⟩
  | cons a rest ih =>
    intro i hvalid
    obtain ⟨r, hr⟩ := Option.isSome_iff_exists.1 (hvalid a (List.mem_cons_self a rest))
    obtain ⟨b, hb, hab⟩ := hrel a r hr
    obtain ⟨bs, hbs, hall⟩ := ih (i + 1) (fun x hx => hvalid x (List.mem_cons_of_mem a hx))
    refine ⟨b :: bs, ?_, List.Forall₂.cons hab hall⟩
    simp only [List.map_cons, preprocessActions, hb, hbs]

/-- C21: when the reference data of every action parses (is blank or valid JSON),
    `preprocessTransaction` returns a builder whose actions correspond one to one, in
    order, to the actions of the form: no built action has type `retire_asset`; an action
    that had it has type `control_program` and `control_program` `"6a"`; any other action
    keeps its type; with `submit_action` `"generate"` every action has `ttl` and
    `reservation_ttl` `"1h"`; `reference_data` is the parsed value.  The builder has
    `base_transaction` as in the form, omitted when it is the empty string. -/
theorem preprocessTransaction_builder {J : Type} (parse : JSField String → Option J)
    (f : FormParams) (acts : List (TxAction (JSField String)))
    (hvalid : ∀ a ∈ acts, (parse a.reference_data).isSome = true) :
    ∃ built : List (TxAction J),
      preprocessTransaction parse { f with actions := JSField.val acts } =
        Except.ok
          { base_transaction :=
              if f.base_transaction = JSField.val "" then JSField.absent
              else f.base_transaction
            actions := JSField.val built } ∧
      built.length = acts.length ∧
      List.Forall₂
        (fun a b =>
          b.type ≠ JSField.val "retire_asset" ∧
          (a.type = JSField.val "retire_asset" →
            b.type = JSField.val "control_program" ∧ b.control_program = JSField.val "6a") ∧
          (a.type ≠ JSField.val "retire_asset" → b.type = a.type) ∧
          (f.submit_action = JSField.val "generate" →
            b.ttl = JSField.val "1h" ∧ b.reservation_ttl = JSField.val "1h") ∧
          parse a.reference_data = some b.reference_data)
        acts built ∧
      (f.base_transaction = JSField.val "" →
        preprocessTransaction parse { f with actions := JSField.val acts } =
          Except.ok { base_transaction := JSField.absent, actions := JSField.val built }) := by
  obtain ⟨built, hbuilt, hall⟩ := preprocessActions_forall₂ parse
    (decide (f.submit_action = JSField.val "generate"))
    (fun a b =>
      b.type ≠ JSField.val "retire_asset" ∧
      (a.type = JSField.val "retire_asset" →
        b.type = JSField.val "control_program" ∧ b.control_program = JSField.val "6a") ∧
      (a.type ≠ JSField.val "retire_asset" → b.type = a.type) ∧
      (f.submit_action = JSField.val "generate" →
        b.ttl = JSField.val "1h" ∧ b.reservation_ttl = JSField.val "1h") ∧
      parse a.reference_data = some b.reference_data)
    (by
      intro a r hr
      obtain ⟨b, hb, h1, h2, h3, h4, _, h6⟩ :=
        preprocessAction_spec parse (decide (f.submit_action = JSField.val "generate")) a r hr
      refine ⟨b, hb, h1, h2, fun h => (h3 h).1, ?_, ?_⟩
      · intro hg
        exact h4 (by simp [hg])
      · rw [hr, h6])
    acts 0 hvalid
  have hres : preprocessTransaction parse { f with actions := JSField.val acts } =
      Except.ok
        { base_transaction :=
            if f.base_transaction = JSField.val "" then JSField.absent
            else f.base_transaction
          actions := JSField.val built } := by
    simp only [preprocessTransaction, hbuilt]
  refine ⟨built, hres, (List.Forall₂.length_eq hall).symm, hall, ?_⟩
  intro hb
  rw [hres, if_pos hb]

/-- C21, on a form with an empty `base_transaction`, `submit_action` `"generate"` and two
    actions, a `retire_asset` and an `issue`, with a parser that accepts every text: the
    builder has no `base_transaction` and two actions, which are spelled out. -/
theorem preprocessTransaction_builder_witness :
    (∀ a ∈ ([{ type := JSField.val "retire_asset", reference_data := JSField.val "" },
              { type := JSField.val "issue", reference_data := JSField.val "{}" }] :
            List (TxAction (JSField String))),
      ((fun r => some r : JSField String → Option (JSField String)) a.reference_data).isSome
        = true) ∧
    (∃ built : List (TxAction (JSField String)),
      preprocessTransaction (fun r => some r)
          { base_transaction := JSField.val "",
            actions := JSField.val
              [{ type := JSField.val "retire_asset", reference_data := JSField.val "" },
               { type := JSField.val "issue", reference_data := JSField.val "{}" }],
            submit_action := JSField.val "generate" } =
        Except.ok { base_transaction := JSField.absent, actions := JSField.val built } ∧
      built.length = 2) ∧
    preprocessTransaction (fun r => some r)
        { base_transaction := JSField.val "",
          actions := JSField.val
            [{ type := JSField.val "retire_asset", reference_data := JSField.val "" },
             { type := JSField.val "issue", reference_data := JSField.val "{}" }],
          submit_action := JSField.val "generate" } =
      Except.ok
        { base_transaction := JSField.absent,
          actions := JSField.val
            [{ type := JSField.val "control_program", ttl := JSField.val "1h",
               reservation_ttl := JSField.val "1h", control_program := JSField.val "6a",
               reference_data := JSField.val "" },
             { type := JSField.val "issue", ttl := JSField.val "1h",
               reservation_ttl := JSField.val "1h", reference_data := JSField.val "{}" }] } := by
  have hvalid : ∀ a ∈ ([{ type := JSField.val "retire_asset", reference_data := JSField.val "" },
              { type := JSField.val "issue", reference_data := JSField.val "{}" }] :
            List (TxAction (JSField String))),
      ((fun r => some r : JSField String → Option (JSField String)) a.reference_data).isSome
        = true := fun _ _ => rfl
  obtain ⟨built, _, hlen, _, hbase⟩ := preprocessTransaction_builder (fun r => some r)
    { base_transaction := JSField.val "", submit_action := JSField.val "generate" }
    [{ type := JSField.val "retire_asset", reference_data := JSField.val "" },
     { type := JSField.val "issue", reference_data := JSField.val "{}" }] hvalid
  exact ⟨hvalid, ⟨built, hbase rfl, hlen⟩, rfl⟩

/-! ## `average()` on a buffer of distinct timestamps -/

/-- C10 (as the code has it): in a buffer in which no two samples carry the same
    timestamp, `average()` never divides by zero.  With at most one non-expired sample it
    is not-a-number; when the non-expired samples are `e`, some samples `mid`, `l` in
    buffer order, the first and the last are distinct samples, the divisor
    `l.time - e.time` is not zero, and the result is
    `1000 * (l.value - e.value) / (l.time - e.time)` in the operators of the code.  So the
    result is always not-a-number for lack of data or a rate over a non-zero time
    difference. -/
theorem average_divisor_nonzero (d : DeltaSampler) (now : Int)
    (hts : (d.samples.map Sample.time).Nodup) :
    ((d.samples.filter (live (now - d.sampleTtl))).length ≤ 1 →
      d.average now = JSNum.nan) ∧
    (∀ (e l : Sample) (mid : List Sample),
      d.samples.filter (live (now - d.sampleTtl)) = e :: (mid ++ [l]) →
        l.time - e.time ≠ 0 ∧
        JSNum.ofInt (l.time - e.time) ≠ JSNum.fin 0 ∧
        d.average now =
          JSNum.fin 1000 * (l.value.toNumber - e.value.toNumber) /
            JSNum.ofInt (l.time - e.time)) ∧
    (d.average now = JSNum.nan ∨
      ∃ e l : Sample, e ∈ d.samples ∧ l ∈ d.samples ∧ l.time - e.time ≠ 0 ∧
        d.average now =
          JSNum.fin 1000 * (l.value.toNumber - e.value.toNumber) /
            JSNum.ofInt (l.time - e.time)) := by
  have hfew : (d.samples.filter (live (now - d.sampleTtl))).length ≤ 1 →
      d.average now = JSNum.nan := by
    intro hlen
    rw [average_eq_rateOfLive]
    match hF : d.samples.filter (live (now - d.sampleTtl)), hlen with
    | [], _ => rfl
    | [x], _ => rfl
    | _ :: _ :: _, h => simp at h
  have htwo : ∀ (e l : Sample) (mid : List Sample),
      d.samples.filter (live (now - d.sampleTtl)) = e :: (mid ++ [l]) →
        l.time - e.time ≠ 0 ∧
        JSNum.ofInt (l.time - e.time) ≠ JSNum.fin 0 ∧
        d.average now =
          JSNum.fin 1000 * (l.value.toNumber - e.value.toNumber) /
            JSNum.ofInt (l.time - e.time) := by
    intro e l mid hF
    have hsub : ((d.samples.filter (live (now - d.sampleTtl))).map Sample.time).Nodup :=
      List.Nodup.sublist (List.Sublist.map Sample.time (List.filter_sublist d.samples)) hts
    rw [hF] at hsub
    have hne : e.time ≠ l.time := by
      intro h
      have hnot := (List.nodup_cons.1 hsub).1
      apply hnot
      simp [h]
    have hdiff : l.time - e.time ≠ 0 := by omega
    refine ⟨hdiff, ?_, ?_⟩
    · intro h0
      have h1 : ((l.time - e.time : Int) : ℚ) = 0 := JSNum.fin.inj h0
      exact hdiff (by exact_mod_cast h1)
    · rw [average_eq_rateOfLive, hF, rateOfLive_first_last]
      rfl
  refine ⟨hfew, htwo, ?_⟩
  match hF : d.samples.filter (live (now - d.sampleTtl)) with
  | [] => exact Or.inl (hfew (by rw [hF]; simp))
  | [x] => exact Or.inl (hfew (by rw [hF]; simp))
  | e :: y :: rest =>
    rcases List.eq_nil_or_concat (y :: rest) with h | ⟨mid, l, h⟩
    · exact absurd h (List.cons_ne_nil y rest)
    · rw [h, List.concat_eq_append] at hF
      obtain ⟨h1, _, h3⟩ := htwo e l mid hF
      have hmem : ∀ x ∈ d.samples.filter (live (now - d.sampleTtl)), x ∈ d.samples :=
        fun x hx => (List.mem_filter.1 hx).1
      exact Or.inr ⟨e, l, hmem e (by rw [hF]; simp), hmem l (by rw [hF]; simp), h1, h3⟩

/-- C10 (as the code has it), on the buffer `[{100, 0}, {7, 500}, {300, 1000}]` read at
    time `1000` with a TTL of ten seconds: the timestamps are distinct, the divisor is
    `1000 - 0`, and the average is the rate between the first and the last sample. -/
theorem average_divisor_nonzero_witness :
    (([⟨JSField.val (JSNum.fin 100), 0⟩, ⟨JSField.val (JSNum.fin 7), 500⟩,
        ⟨JSField.val (JSNum.fin 300), 1000⟩] : List Sample).map Sample.time).Nodup ∧
    ([⟨JSField.val (JSNum.fin 100), 0⟩, ⟨JSField.val (JSNum.fin 7), 500⟩,
        ⟨JSField.val (JSNum.fin 300), 1000⟩] : List Sample).filter (live (1000 - 10000)) =
      ⟨JSField.val (JSNum.fin 100), 0⟩ ::
        ([⟨JSField.val (JSNum.fin 7), 500⟩] ++ [⟨JSField.val (JSNum.fin 300), 1000⟩]) ∧
    ((1000 : Int) - 0 ≠ 0 ∧
      DeltaSampler.average
          ⟨10000, 60,
            [⟨JSField.val (JSNum.fin 100), 0⟩, ⟨JSField.val (JSNum.fin 7), 500⟩,
              ⟨JSField.val (JSNum.fin 300), 1000⟩]⟩
          1000 =
        JSNum.fin 1000 * (JSNum.fin 300 - JSNum.fin 100) / JSNum.ofInt (1000 - 0)) := by
  have h := (average_divisor_nonzero
    ⟨10000, 60,
      [⟨JSField.val (JSNum.fin 100), 0⟩, ⟨JSField.val (JSNum.fin 7), 500⟩,
        ⟨JSField.val (JSNum.fin 300), 1000⟩]⟩
    1000 (by decide)).2.1
    ⟨JSField.val (JSNum.fin 100), 0⟩ ⟨JSField.val (JSNum.fin 300), 1000⟩
    [⟨JSField.val (JSNum.fin 7), 500⟩] (by decide)
  exact ⟨by decide, by decide, h.1, h.2.2⟩

end Chain
